import Mathlib

/-!
libdjinterop: Engine storage layer

A shallow embedding of the parts of libdjinterop that the storage
specification talks about:

* `src/djinterop/engine/v2/track_data_blob.cpp` (track-data blob codec),
* `src/djinterop/engine/v2/track_impl.cpp` (snapshot to row mapping, track
  handle accessors),
* `src/djinterop/enginelibrary/el_database_impl.cpp` (Engine v1 catalogue
  operations),
* `src/djinterop/engine/v2/database_impl.cpp` (Engine v2 catalogue operations).

Conventions.  A C++ `double` is represented by its 64-bit IEEE-754 pattern
(a natural number below `2^64`); `int32_t`/`int64_t` are integers, reduced
modulo `2^32`/`2^64` where the code serialises them.  A byte is a natural
number below 256 and a buffer is a list of bytes.  A pointer into a buffer is
the offset from `data()`.  Functions that can throw return `Except exn`.
-/

namespace djinterop

/-! ## Exceptions -/

/-- The exception kinds thrown by the embedded code. `external` stands for an
error raised by a collaborator outside the library (zlib, the SQL engine).
`malformed_blob` is the kind that the specification names for blob decoding
errors; none of the embedded functions throws it. -/
inductive exn where
  | invalid_argument (msg : String)
  | out_of_range (msg : String)
  | runtime_error (msg : String)
  | invalid_track_snapshot (msg : String)
  | track_deleted (id : Int)
  | crate_invalid_name (msg : String) (name : String)
  | crate_database_inconsistency (msg : String) (id : Int)
  | track_database_inconsistency (msg : String) (id : Int)
  | external (msg : String)
  | malformed_blob (msg : String)
  deriving DecidableEq, Repr

/-! ## Primitive codecs (`encode_decode_utils.hpp`) -/

/-- The `n` low-order bytes of `w`, most significant first. -/
def be_bytes : Nat → Nat → List Nat
  | 0, _ => []
  | n + 1, w => be_bytes n (w / 256) ++ [w % 256]

/-- The number whose big-endian digits in base 256 are `bs`. -/
def be_value (bs : List Nat) : Nat :=
  bs.foldl (fun acc b => acc * 256 + b) 0

/-- Two's-complement reading of a `w`-bit pattern. -/
def to_signed (w : Nat) (u : Nat) : Int :=
  if u < 2 ^ (w - 1) then (u : Int) else (u : Int) - 2 ^ w

/-- Two's-complement pattern of an integer in `w` bits. -/
def to_unsigned (w : Nat) (v : Int) : Nat :=
  (v % 2 ^ w).toNat

/-- Store `bs` into `buf` starting at offset `ptr`. -/
def write_at (buf : List Nat) (ptr : Nat) (bs : List Nat) : List Nat :=
  buf.take ptr ++ bs ++ buf.drop (ptr + bs.length)

/-- The `n` bytes of `buf` starting at offset `ptr`. -/
def read_at (buf : List Nat) (ptr n : Nat) : List Nat :=
  (buf.drop ptr).take n

/-- Modelled from the spec: `encode_double_be` of `encode_decode_utils.hpp`
(not among the sources). Writes the IEEE-754 pattern of a double, big-endian,
at the given offset and returns the advanced offset. -/
def encode_double_be (bits : Nat) (buf : List Nat) (ptr : Nat) : List Nat × Nat :=
  (write_at buf ptr (be_bytes 8 bits), ptr + 8)

/-- Modelled from the spec: `encode_int64_be` of `encode_decode_utils.hpp`
(not among the sources). Writes a signed 64-bit integer, big-endian. -/
def encode_int64_be (v : Int) (buf : List Nat) (ptr : Nat) : List Nat × Nat :=
  (write_at buf ptr (be_bytes 8 (to_unsigned 64 v)), ptr + 8)

/-- Modelled from the spec: `encode_int32_be` of `encode_decode_utils.hpp`
(not among the sources). Writes a signed 32-bit integer, big-endian. -/
def encode_int32_be (v : Int) (buf : List Nat) (ptr : Nat) : List Nat × Nat :=
  (write_at buf ptr (be_bytes 4 (to_unsigned 32 v)), ptr + 4)

/-- Modelled from the spec: `decode_double_be` of `encode_decode_utils.hpp`
(not among the sources). It receives a pointer only, so it reads eight bytes
and returns the pattern with the advanced offset. -/
def decode_double_be (buf : List Nat) (ptr : Nat) : Nat × Nat :=
  (be_value (read_at buf ptr 8), ptr + 8)

/-- Modelled from the spec: `decode_int64_be` of `encode_decode_utils.hpp`
(not among the sources). -/
def decode_int64_be (buf : List Nat) (ptr : Nat) : Int × Nat :=
  (to_signed 64 (be_value (read_at buf ptr 8)), ptr + 8)

/-- Modelled from the spec: `decode_int32_be` of `encode_decode_utils.hpp`
(not among the sources). -/
def decode_int32_be (buf : List Nat) (ptr : Nat) : Int × Nat :=
  (to_signed 32 (be_value (read_at buf ptr 4)), ptr + 4)

/-- The zlib wrapper (`zlib_compress` / `zlib_uncompress`), an external
collaborator taken as a parameter. Uncompressing can throw. -/
structure zlib where
  zlib_compress : List Nat → List Nat
  zlib_uncompress : List Nat → Except exn (List Nat)

/-- The round-trip assumption on the zlib wrapper, for byte strings. -/
def zlib.round_trips (z : zlib) : Prop :=
  ∀ b : List Nat, (∀ x ∈ b, x < 256) → z.zlib_uncompress (z.zlib_compress b) = .ok b

/-- A stand-in codec that stores the payload uncompressed. -/
def zlib.stored : zlib where
  zlib_compress := fun b => b
  zlib_uncompress := fun b => .ok b

/-! ## Track-data blob (`engine/v2/track_data_blob.cpp`) -/

/-- The struct `track_data_blob`: doubles as bit patterns. -/
structure track_data_blob where
  sample_rate : Nat
  samples : Int
  average_loudness : Nat
  key : Int
  deriving DecidableEq, Repr

/-- The value fits the C++ field types (`double`, `int64_t`, `double`,
`int32_t`). -/
def track_data_blob.representable (x : track_data_blob) : Prop :=
  x.sample_rate < 2 ^ 64 ∧
  (-(2 : Int) ^ 63 ≤ x.samples ∧ x.samples < 2 ^ 63) ∧
  x.average_loudness < 2 ^ 64 ∧
  (-(2 : Int) ^ 31 ≤ x.key ∧ x.key < 2 ^ 31)

/-- The local variables of `to_blob` at its `assert(ptr == end)`. -/
structure to_blob_locals where
  uncompressed : List Nat
  ptr : Nat
  end_ : Nat
  deriving DecidableEq, Repr

/-- The body of `track_data_blob::to_blob` up to the assertion. -/
def track_data_blob.to_blob_run (x : track_data_blob) : to_blob_locals :=
  let uncompressed := List.replicate 28 0
  let ptr := 0
  let end_ := ptr + uncompressed.length
  let (uncompressed, ptr) := encode_double_be x.sample_rate uncompressed ptr
  let (uncompressed, ptr) := encode_int64_be x.samples uncompressed ptr
  let (uncompressed, ptr) := encode_double_be x.average_loudness uncompressed ptr
  let (uncompressed, ptr) := encode_int32_be x.key uncompressed ptr
  { uncompressed := uncompressed, ptr := ptr, end_ := end_ }

/-- The function `track_data_blob::to_blob`. -/
def track_data_blob.to_blob (z : zlib) (x : track_data_blob) : List Nat :=
  z.zlib_compress x.to_blob_run.uncompressed

/-- The local variables of `from_blob` when it leaves: the outcome, and the
read pointer with the end pointer (both offsets into `uncompressed`). -/
structure from_blob_locals where
  result : Except exn track_data_blob
  ptr : Nat
  end_ : Nat

/-- The body of `track_data_blob::from_blob` after a successful
`zlib_uncompress`. -/
def track_data_blob.from_uncompressed (uncompressed : List Nat) : from_blob_locals :=
  let ptr := 0
  let end_ := ptr + uncompressed.length
  if uncompressed.length ≠ 28 then
    { result := .error (.invalid_argument
        "Track data blob doesn't have expected decompressed length of 28 bytes"),
      ptr := ptr, end_ := end_ }
  else
    let (sample_rate, ptr) := decode_double_be uncompressed ptr
    let (samples, ptr) := decode_int64_be uncompressed ptr
    let (average_loudness, ptr) := decode_double_be uncompressed ptr
    let (key, ptr) := decode_int32_be uncompressed ptr
    { result := .ok { sample_rate := sample_rate, samples := samples,
                      average_loudness := average_loudness, key := key },
      ptr := ptr, end_ := end_ }

/-- The function `track_data_blob::from_blob`. -/
def track_data_blob.from_blob (z : zlib) (blob : List Nat) : Except exn track_data_blob :=
  match z.zlib_uncompress blob with
  | .error e => .error e
  | .ok uncompressed => (track_data_blob.from_uncompressed uncompressed).result

/-! ## Doubles as bit patterns -/

/-- IEEE-754: the pattern is a NaN (exponent all ones, fraction not zero). -/
def f64_is_nan (b : Nat) : Bool :=
  (b / 2 ^ 52 % 2 ^ 11 == 2047) && (b % 2 ^ 52 != 0)

/-- IEEE-754: the pattern is `+0.0` or `-0.0`. -/
def f64_is_zero (b : Nat) : Bool :=
  b % 2 ^ 63 == 0

/-- The C++ comparison `a != b` on doubles, over their patterns: true when
either side is a NaN, false on two zeros of any sign, and otherwise true
exactly when the patterns differ. -/
def f64_ne (a b : Nat) : Bool :=
  f64_is_nan a || f64_is_nan b || (!(f64_is_zero a && f64_is_zero b) && a != b)

/-! ## Snapshot-side value types (`performance_data.hpp`, `track_snapshot.hpp`) -/

/-- The sentinel `TRACK_ROW_ID_NONE`. -/
def TRACK_ROW_ID_NONE : Int := 0

/-- The sentinel `ALBUM_ART_ID_NONE`. -/
def ALBUM_ART_ID_NONE : Int := 1

/-- One of the 24 musical keys. -/
abbrev musical_key := Fin 24

/-- The struct `sampling_info`. -/
structure sampling_info where
  sample_rate : Nat
  sample_count : Int
  deriving DecidableEq, Repr

/-- The struct `beatgrid_marker`: beat index and sample offset. -/
structure beatgrid_marker where
  index : Int
  sample_offset : Nat
  deriving DecidableEq, Repr

/-- The struct `pad_color`. -/
structure pad_color where
  r : Nat
  g : Nat
  b : Nat
  a : Nat
  deriving DecidableEq, Repr

/-- The struct `hot_cue`. -/
structure hot_cue where
  label : String
  sample_offset : Nat
  color : pad_color
  deriving DecidableEq, Repr

/-- The struct `loop`. -/
structure loop where
  label : String
  start_sample_offset : Nat
  end_sample_offset : Nat
  color : pad_color
  deriving DecidableEq, Repr

/-- The struct `waveform_point`. -/
structure waveform_point where
  value : Nat
  opacity : Nat
  deriving DecidableEq, Repr

/-- The struct `waveform_entry`. -/
structure waveform_entry where
  low : waveform_point
  mid : waveform_point
  high : waveform_point
  deriving DecidableEq, Repr

/-- The struct `track_import_info`. -/
structure track_import_info where
  external_db_uuid : String
  external_track_id : Int
  deriving DecidableEq, Repr

/-- The struct `track_snapshot`. Time points are tick counts, durations are
milliseconds. -/
structure track_snapshot where
  id : Option Int := none
  adjusted_beatgrid : List beatgrid_marker := []
  adjusted_main_cue : Option Nat := none
  album : Option String := none
  artist : Option String := none
  average_loudness : Option Nat := none
  bitrate : Option Int := none
  bpm : Option Nat := none
  comment : Option String := none
  composer : Option String := none
  default_beatgrid : List beatgrid_marker := []
  default_main_cue : Option Nat := none
  duration : Option Int := none
  file_bytes : Option Int := none
  genre : Option String := none
  hot_cues : List (Option hot_cue) := List.replicate 8 none
  key : Option musical_key := none
  last_accessed_at : Option Int := none
  last_modified_at : Option Int := none
  last_played_at : Option Int := none
  loops : List (Option loop) := List.replicate 8 none
  publisher : Option String := none
  rating : Option Int := none
  relative_path : Option String := none
  sampling : Option sampling_info := none
  title : Option String := none
  track_number : Option Int := none
  waveform : List waveform_entry := []
  year : Option Int := none
  deriving DecidableEq, Repr

/-! ## Row-side value types (`engine/v2/*_blob.hpp`, `track_table.hpp`) -/

/-- The struct `beat_grid_marker_blob`. -/
structure beat_grid_marker_blob where
  sample_offset : Nat
  beat_number : Int
  unknown1 : Int
  unknown2 : Int
  deriving DecidableEq, Repr

/-- The struct `beat_data_blob`. -/
structure beat_data_blob where
  sample_rate : Nat
  samples : Int
  is_beatgrid_set : Bool
  default_beat_grid : List beat_grid_marker_blob
  adjusted_beat_grid : List beat_grid_marker_blob
  deriving DecidableEq, Repr

/-- The struct `quick_cue_blob`. -/
structure quick_cue_blob where
  label : String
  sample_offset : Nat
  color : pad_color
  deriving DecidableEq, Repr

/-- The struct `quick_cues_blob`. -/
structure quick_cues_blob where
  quick_cues : List quick_cue_blob
  default_main_cue : Nat
  is_main_cue_adjusted : Bool
  adjusted_main_cue : Nat
  deriving DecidableEq, Repr

/-- The struct `loop_blob`. -/
structure loop_blob where
  label : String
  start_sample_offset : Nat
  end_sample_offset : Nat
  is_start_set : Bool
  is_end_set : Bool
  color : pad_color
  deriving DecidableEq, Repr

/-- The struct `loops_blob`. -/
structure loops_blob where
  loops : List loop_blob
  deriving DecidableEq, Repr

/-- The struct `overview_waveform_data_blob`. -/
structure overview_waveform_data_blob where
  samples_per_entry : Int
  entries : List waveform_entry
  deriving DecidableEq, Repr

/-- The struct `information_row` (the columns used here). -/
structure information_row where
  uuid : String
  schema_version_major : Int
  schema_version_minor : Int
  schema_version_patch : Int
  deriving DecidableEq, Repr

/-- The struct `track_row`, fields in constructor order. -/
structure track_row where
  id : Int
  play_order : Option Int
  length : Option Int
  bpm : Option Int
  year : Option Int
  path : String
  filename : String
  bitrate : Option Int
  bpm_analyzed : Option Nat
  album_art_id : Int
  file_bytes : Option Int
  title : Option String
  artist : Option String
  album : Option String
  genre : Option String
  comment : Option String
  label : Option String
  composer : Option String
  remixer : Option String
  key : Option Int
  rating : Int
  album_art : Option String
  time_last_played : Option Int
  is_played : Bool
  file_type : String
  is_analyzed : Bool
  date_created : Option Int
  date_added : Option Int
  is_available : Bool
  is_metadata_of_packed_track_changed : Bool
  is_performance_data_of_packed_track_changed : Bool
  played_indicator : Option Int
  is_metadata_imported : Bool
  pdb_import_key : Int
  streaming_source : Option String
  uri : Option String
  is_beat_grid_locked : Bool
  origin_database_uuid : String
  origin_track_id : Int
  track_data : track_data_blob
  overview_waveform_data : overview_waveform_data_blob
  beat_data : beat_data_blob
  quick_cues : quick_cues_blob
  loops : loops_blob
  third_party_source_id : Option Int
  streaming_flags : Int
  explicit_lyrics : Bool
  deriving DecidableEq, Repr

/-! ## Conversions (`engine/v2/convert_*.hpp`) and path helpers (`util.hpp`) -/

/-- Result of `convert::write::bpm`. -/
structure converted_bpm_fields where
  bpm : Option Int
  bpm_analyzed : Option Nat
  deriving DecidableEq, Repr

/-- Result of `convert::write::key`. -/
structure converted_key_fields where
  key : Option Int
  track_data_key : Int
  deriving DecidableEq, Repr

/-- Result of `convert::write::sampling`. -/
structure converted_sampling_fields where
  track_data_sample_rate : Nat
  track_data_samples : Int
  beat_data_sample_rate : Nat
  beat_data_samples : Int
  deriving DecidableEq, Repr

/-- Result of `convert::write::beatgrid`. -/
structure converted_beatgrid_fields where
  is_beatgrid_set : Bool
  default_beat_grid : List beat_grid_marker_blob
  adjusted_beat_grid : List beat_grid_marker_blob
  deriving DecidableEq, Repr

/-- The conversions of `convert_*.hpp` whose bodies are not among the sources
and that involve floating-point arithmetic or an unspecified table; they are
taken as parameters. -/
structure convert where
  write_average_loudness : Option Nat → Nat
  write_bpm : Option Nat → converted_bpm_fields
  write_duration : Option Int → Option Int
  write_key : Option musical_key → converted_key_fields
  write_waveform : List waveform_entry → Option sampling_info → overview_waveform_data_blob
  write_beatgrid : List beatgrid_marker → List beatgrid_marker → converted_beatgrid_fields
  write_beatgrid_single : List beatgrid_marker → converted_beatgrid_fields
  write_main_cue : Option Nat → Nat
  write_hot_cues : List (Option hot_cue) → List quick_cue_blob
  write_loops : List (Option loop) → loops_blob

/-- Modelled from the spec: `convert::write::rating` (not among the sources):
absent becomes 0, a value is clamped to 0..100. -/
def convert.write_rating (rating : Option Int) : Int :=
  match rating with
  | none => 0
  | some v => max 0 (min v 100)

/-- Modelled from the spec: `convert::write::sampling` (not among the
sources): the sampling fans out to the four row fields, absent writes zeros. -/
def convert.write_sampling (sampling : Option sampling_info) : converted_sampling_fields :=
  match sampling with
  | none => { track_data_sample_rate := 0, track_data_samples := 0,
              beat_data_sample_rate := 0, beat_data_samples := 0 }
  | some s => { track_data_sample_rate := s.sample_rate, track_data_samples := s.sample_count,
                beat_data_sample_rate := s.sample_rate, beat_data_samples := s.sample_count }

/-- Modelled from the spec: `convert::write::beatgrid_markers` (not among the
sources): one marker blob per marker, the two unknown fields written as zero. -/
def convert.write_beatgrid_markers (beatgrid : List beatgrid_marker) :
    List beat_grid_marker_blob :=
  beatgrid.map fun m =>
    { sample_offset := m.sample_offset, beat_number := m.index, unknown1 := 0, unknown2 := 0 }

/-- Modelled from the spec: `get_filename` of `util.hpp` (not among the
sources): the substring after the last `/`, the whole string if there is
none. -/
def get_filename (file_path : String) : String :=
  String.mk (file_path.data.reverse.takeWhile (fun c => c != '/')).reverse

/-- The substring of a file name after its last `.` (the whole name if there
is none). -/
def after_last_dot (filename : String) : String :=
  String.mk (filename.data.reverse.takeWhile (fun c => c != '.')).reverse

/-- Modelled from the spec: `get_file_extension` of `util.hpp` (not among the
sources): the substring after the last `.` of the file name, absent when the
file name has no `.`. The source tests the result for presence and callers
substitute the empty string for an absent one. -/
def get_file_extension (file_path : String) : Option String :=
  let filename := get_filename file_path
  if filename.data.contains '.' then some (after_last_dot filename) else none

/-! ## The snapshot to row mapping (`engine/v2/track_impl.cpp`) -/

/-- The function `snapshot_to_row`. -/
def snapshot_to_row (cv : convert) (snapshot : track_snapshot) (information : information_row) :
    Except exn track_row :=
  match snapshot.relative_path with
  | none => .error (.invalid_track_snapshot
      "Snapshot does not contain a populated `relative_path` field, which is required to write a track")
  | some relative_path =>
    let track_id := snapshot.id.getD TRACK_ROW_ID_NONE
    let filename := get_filename relative_path
    let remixer : Option String := none
    let rating := convert.write_rating snapshot.rating
    let album_art : Option String := none
    let is_played := false
    let is_analyzed := true
    match get_file_extension filename with
    | none => .error (.invalid_track_snapshot
        "Snapshot refers to a file with no file extension, and so cannot auto-determine file type based on extension")
    | some file_type =>
      let album_art_id := ALBUM_ART_ID_NONE
      let date_created : Option Int := none
      let date_added : Option Int := none
      let is_available := true
      let is_metadata_of_packed_track_changed := false
      let is_performance_data_of_packed_track_changed := false
      let played_indicator : Option Int := none
      let is_metadata_imported := false
      let pdb_import_key : Int := 0
      let streaming_source : Option String := none
      let uri : Option String := none
      let is_beat_grid_locked := false
      let origin_database_uuid := information.uuid
      let origin_track_id : Int := 0
      let converted_average_loudness := cv.write_average_loudness snapshot.average_loudness
      let converted_bpm := cv.write_bpm snapshot.bpm
      let converted_duration := cv.write_duration snapshot.duration
      let converted_key := cv.write_key snapshot.key
      let converted_sampling := convert.write_sampling snapshot.sampling
      let track_data : track_data_blob :=
        { sample_rate := converted_sampling.track_data_sample_rate,
          samples := converted_sampling.track_data_samples,
          average_loudness := converted_average_loudness,
          key := converted_key.track_data_key }
      let overview_waveform_data := cv.write_waveform snapshot.waveform snapshot.sampling
      let converted_beatgrid :=
        cv.write_beatgrid snapshot.default_beatgrid snapshot.adjusted_beatgrid
      let beat_data : beat_data_blob :=
        { sample_rate := converted_sampling.beat_data_sample_rate,
          samples := converted_sampling.beat_data_samples,
          is_beatgrid_set := converted_beatgrid.is_beatgrid_set,
          default_beat_grid := converted_beatgrid.default_beat_grid,
          adjusted_beat_grid := converted_beatgrid.adjusted_beat_grid }
      let default_main_cue := cv.write_main_cue snapshot.default_main_cue
      let adjusted_main_cue := cv.write_main_cue snapshot.adjusted_main_cue
      let quick_cues : quick_cues_blob :=
        { quick_cues := cv.write_hot_cues snapshot.hot_cues,
          default_main_cue := default_main_cue,
          is_main_cue_adjusted := f64_ne default_main_cue adjusted_main_cue,
          adjusted_main_cue := adjusted_main_cue }
      let loops := cv.write_loops snapshot.loops
      let third_party_source_id : Option Int := none
      let streaming_flags : Int := 0
      let explicit_lyrics := false
      .ok
        { id := track_id
          play_order := snapshot.track_number
          length := converted_duration
          bpm := converted_bpm.bpm
          year := snapshot.year
          path := relative_path
          filename := filename
          bitrate := snapshot.bitrate
          bpm_analyzed := converted_bpm.bpm_analyzed
          album_art_id := album_art_id
          file_bytes := snapshot.file_bytes
          title := snapshot.title
          artist := snapshot.artist
          album := snapshot.album
          genre := snapshot.genre
          comment := snapshot.comment
          label := snapshot.publisher
          composer := snapshot.composer
          remixer := remixer
          key := converted_key.key
          rating := rating
          album_art := album_art
          time_last_played := snapshot.last_played_at
          is_played := is_played
          file_type := file_type
          is_analyzed := is_analyzed
          date_created := date_created
          date_added := date_added
          is_available := is_available
          is_metadata_of_packed_track_changed := is_metadata_of_packed_track_changed
          is_performance_data_of_packed_track_changed :=
            is_performance_data_of_packed_track_changed
          played_indicator := played_indicator
          is_metadata_imported := is_metadata_imported
          pdb_import_key := pdb_import_key
          streaming_source := streaming_source
          uri := uri
          is_beat_grid_locked := is_beat_grid_locked
          origin_database_uuid := origin_database_uuid
          origin_track_id := origin_track_id
          track_data := track_data
          overview_waveform_data := overview_waveform_data
          beat_data := beat_data
          quick_cues := quick_cues
          loops := loops
          third_party_source_id := third_party_source_id
          streaming_flags := streaming_flags
          explicit_lyrics := explicit_lyrics }

/-! ## The track table (`engine/v2/track_table.hpp`) and the library context -/

/-- Modelled from the spec: the row store of the `Track` table (its source
file is not among the sources), as the list of its rows in insertion order. -/
structure track_table where
  rows : List track_row
  deriving DecidableEq, Repr

/-- Modelled from the spec: `track_table::exists`. -/
def track_table.exists (t : track_table) (id : Int) : Bool :=
  t.rows.any fun r => r.id == id

/-- Modelled from the spec: `track_table::get`. -/
def track_table.get (t : track_table) (id : Int) : Option track_row :=
  t.rows.find? fun r => r.id == id

/-- Modelled from the spec: `track_table::all_ids`. -/
def track_table.all_ids (t : track_table) : List Int :=
  t.rows.map fun r => r.id

/-- The id given to the next inserted row: one more than the largest id in
use, and at least 1. -/
def track_table.next_id (t : track_table) : Int :=
  t.all_ids.foldl max 0 + 1

/-- Modelled from the spec: `track_table::add` inserts the row under a new id,
ignoring the `id` field of its argument, and returns the new id. -/
def track_table.add (t : track_table) (row : track_row) : track_table × Int :=
  ({ rows := t.rows ++ [{ row with id := t.next_id }] }, t.next_id)

/-- Modelled from the spec: `track_table::update` replaces the whole record
stored under `row.id`, which has to exist. The spec leaves the outcome for a
missing row open; it is modelled as an error of the store. -/
def track_table.update (t : track_table) (row : track_row) : Except exn track_table :=
  if t.exists row.id then
    .ok { rows := t.rows.map fun r => if r.id == row.id then row else r }
  else
    .error (.external "no track row with the given id")

/-- Modelled from the spec: a per-column getter `track_table::get_X`; reading
a column of a missing row is an error of the store. -/
def track_table.get_column {α : Type} (t : track_table) (column : track_row → α) (id : Int) :
    Except exn α :=
  match t.get id with
  | some r => .ok (column r)
  | none => .error (.external "no track row with the given id")

/-- Modelled from the spec: a per-column setter `track_table::set_X`; writing
a column of a missing row is an error of the store. -/
def track_table.set_column (t : track_table) (assign : track_row → track_row) (id : Int) :
    Except exn track_table :=
  if t.exists id then
    .ok { rows := t.rows.map fun r => if r.id == id then assign r else r }
  else
    .error (.external "no track row with the given id")

/-- Getter `track_table::get_quick_cues`. -/
def track_table.get_quick_cues (t : track_table) (id : Int) : Except exn quick_cues_blob :=
  t.get_column (fun r => r.quick_cues) id

/-- Setter `track_table::set_quick_cues`. -/
def track_table.set_quick_cues (t : track_table) (id : Int) (q : quick_cues_blob) :
    Except exn track_table :=
  t.set_column (fun r => { r with quick_cues := q }) id

/-- Getter `track_table::get_beat_data`. -/
def track_table.get_beat_data (t : track_table) (id : Int) : Except exn beat_data_blob :=
  t.get_column (fun r => r.beat_data) id

/-- Setter `track_table::set_beat_data`. -/
def track_table.set_beat_data (t : track_table) (id : Int) (b : beat_data_blob) :
    Except exn track_table :=
  t.set_column (fun r => { r with beat_data := b }) id

/-- Getter `track_table::get_origin_database_uuid`. -/
def track_table.get_origin_database_uuid (t : track_table) (id : Int) : Except exn String :=
  t.get_column (fun r => r.origin_database_uuid) id

/-- Setter `track_table::set_origin_database_uuid`. -/
def track_table.set_origin_database_uuid (t : track_table) (id : Int) (uuid : String) :
    Except exn track_table :=
  t.set_column (fun r => { r with origin_database_uuid := uuid }) id

/-- Getter `track_table::get_origin_track_id`. -/
def track_table.get_origin_track_id (t : track_table) (id : Int) : Except exn Int :=
  t.get_column (fun r => r.origin_track_id) id

/-- Setter `track_table::set_origin_track_id`. -/
def track_table.set_origin_track_id (t : track_table) (id : Int) (origin : Int) :
    Except exn track_table :=
  t.set_column (fun r => { r with origin_track_id := origin }) id

/-- The class `engine_library`: the information row and the track table. -/
structure engine_library where
  information : information_row
  track : track_table
  deriving DecidableEq, Repr

/-! ## Track handles (`engine/v2/track_impl.cpp`)

A handle is the pair of the library and the track id; a method takes the
library state and returns the new state (for a setter) or the value read. -/

/-- The function `track_impl::update`. -/
def track_impl.update (cv : convert) (lib : engine_library) (id : Int)
    (snapshot : track_snapshot) : Except exn engine_library :=
  if snapshot.id.isSome && snapshot.id != some id then
    .error (.invalid_track_snapshot
      "Snapshot pertains to a different track, and so it cannot be used to update this track")
  else do
    let information := lib.information
    let row ← snapshot_to_row cv snapshot information
    let row := { row with id := id }
    let track ← lib.track.update row
    pure { lib with track := track }

/-- The function `track_impl::set_adjusted_beatgrid`. -/
def track_impl.set_adjusted_beatgrid (cv : convert) (lib : engine_library) (id : Int)
    (beatgrid : List beatgrid_marker) : Except exn engine_library := do
  let beat_data ← lib.track.get_beat_data id
  let converted_beatgrid := cv.write_beatgrid_single beatgrid
  let beat_data := { beat_data with adjusted_beat_grid := converted_beatgrid.adjusted_beat_grid }
  let beat_data := { beat_data with is_beatgrid_set := converted_beatgrid.is_beatgrid_set }
  let track ← lib.track.set_beat_data id beat_data
  pure { lib with track := track }

/-- The function `track_impl::adjusted_main_cue`. -/
def track_impl.adjusted_main_cue (lib : engine_library) (id : Int) : Except exn Nat := do
  let quick_cues ← lib.track.get_quick_cues id
  pure quick_cues.adjusted_main_cue

/-- The function `track_impl::set_adjusted_main_cue`. -/
def track_impl.set_adjusted_main_cue (lib : engine_library) (id : Int) (sample_offset : Nat) :
    Except exn engine_library := do
  let quick_cues ← lib.track.get_quick_cues id
  let quick_cues := { quick_cues with adjusted_main_cue := sample_offset }
  let track ← lib.track.set_quick_cues id quick_cues
  pure { lib with track := track }

/-- The function `track_impl::set_default_beatgrid`. -/
def track_impl.set_default_beatgrid (lib : engine_library) (id : Int)
    (beatgrid : List beatgrid_marker) : Except exn engine_library := do
  let beat_data ← lib.track.get_beat_data id
  let beat_data :=
    { beat_data with default_beat_grid := convert.write_beatgrid_markers beatgrid }
  let track ← lib.track.set_beat_data id beat_data
  pure { lib with track := track }

/-- The function `track_impl::default_main_cue`. -/
def track_impl.default_main_cue (lib : engine_library) (id : Int) : Except exn Nat := do
  let quick_cues ← lib.track.get_quick_cues id
  pure quick_cues.default_main_cue

/-- The function `track_impl::set_default_main_cue`. -/
def track_impl.set_default_main_cue (lib : engine_library) (id : Int) (sample_offset : Nat) :
    Except exn engine_library := do
  let quick_cues ← lib.track.get_quick_cues id
  let quick_cues := { quick_cues with default_main_cue := sample_offset }
  let track ← lib.track.set_quick_cues id quick_cues
  pure { lib with track := track }

/-- The function `track_impl::import_info`. -/
def track_impl.import_info (lib : engine_library) (id : Int) :
    Except exn (Option track_import_info) := do
  let this_database_uuid := lib.information.uuid
  let origin_database_uuid ← lib.track.get_origin_database_uuid id
  let origin_track_id ← lib.track.get_origin_track_id id
  if origin_database_uuid == this_database_uuid && origin_track_id == id then
    pure none
  else
    pure (some { external_db_uuid := origin_database_uuid,
                 external_track_id := origin_track_id })

/-- The function `track_impl::set_import_info`. -/
def track_impl.set_import_info (lib : engine_library) (id : Int)
    (import_info : Option track_import_info) : Except exn engine_library :=
  match import_info with
  | some info => do
    let track ← lib.track.set_origin_database_uuid id info.external_db_uuid
    let track ← track.set_origin_track_id id info.external_track_id
    pure { lib with track := track }
  | none => do
    let this_database_uuid := lib.information.uuid
    let track ← lib.track.set_origin_database_uuid id this_database_uuid
    let track ← track.set_origin_track_id id id
    pure { lib with track := track }

/-- The function `create_track` of `track_impl.cpp`; the returned handle is
the new id. -/
def create_track (cv : convert) (lib : engine_library) (snapshot : track_snapshot) :
    Except exn (engine_library × Int) :=
  if snapshot.id.isSome then
    .error (.invalid_track_snapshot
      "Snapshot already pertains to a persisted track, and so it cannot be created again")
  else do
    let information := lib.information
    let row ← snapshot_to_row cv snapshot information
    let (track, id) := lib.track.add row
    pure ({ lib with track := track }, id)

/-- A stand-in for the conversions taken as parameters: values pass through,
absent values become zero, a beat grid counts as set when the two grids differ
or the default grid is not empty. -/
def convert.plain : convert where
  write_average_loudness := fun l => l.getD 0
  write_bpm := fun b => { bpm := none, bpm_analyzed := b }
  write_duration := fun d => d
  write_key := fun k =>
    match k with
    | none => { key := none, track_data_key := 0 }
    | some k => { key := some (k.val + 1), track_data_key := k.val + 1 }
  write_waveform := fun w _ => { samples_per_entry := 0, entries := w }
  write_beatgrid := fun d a =>
    { is_beatgrid_set := decide (d ≠ a) || !d.isEmpty,
      default_beat_grid := convert.write_beatgrid_markers d,
      adjusted_beat_grid := convert.write_beatgrid_markers a }
  write_beatgrid_single := fun g =>
    { is_beatgrid_set := !g.isEmpty,
      default_beat_grid := convert.write_beatgrid_markers g,
      adjusted_beat_grid := convert.write_beatgrid_markers g }
  write_main_cue := fun c => c.getD 0
  write_hot_cues := fun cs => cs.map fun c =>
    match c with
    | none => { label := "", sample_offset := 0xBFF0000000000000, color := ⟨0, 0, 0, 0⟩ }
    | some c => { label := c.label, sample_offset := c.sample_offset, color := c.color }
  write_loops := fun ls => { loops := ls.map fun l =>
    match l with
    | none => { label := "", start_sample_offset := 0, end_sample_offset := 0,
                is_start_set := false, is_end_set := false, color := ⟨0, 0, 0, 0⟩ }
    | some l => { label := l.label, start_sample_offset := l.start_sample_offset,
                  end_sample_offset := l.end_sample_offset,
                  is_start_set := true, is_end_set := true, color := l.color } }

/-! ## Engine v1 storage (`enginelibrary/el_storage.hpp`) -/

/-- The struct `semantic_version`. -/
structure semantic_version where
  maj : Nat
  min : Nat
  pat : Nat
  deriving DecidableEq, Repr

/-- The comparison `operator>=` on `semantic_version`. -/
def semantic_version.ge (a b : semantic_version) : Bool :=
  decide (a.maj > b.maj) ||
    (a.maj == b.maj && (decide (a.min > b.min) || (a.min == b.min && decide (a.pat ≥ b.pat))))

/-- The constant `version_1_9_1`. -/
def version_1_9_1 : semantic_version := { maj := 1, min := 9, pat := 1 }

/-- A row of `Crate`. -/
structure crate_row where
  id : Int
  title : String
  path : String
  deriving DecidableEq, Repr

/-- A row of `CrateParentList`. -/
structure crate_parent_list_row where
  crateOriginId : Int
  crateParentId : Int
  deriving DecidableEq, Repr

/-- A row of `CrateTrackList`. -/
structure crate_track_list_row where
  crateId : Int
  trackId : Int
  deriving DecidableEq, Repr

/-- A row of the v1 `Track` table: the columns that the statements of
`el_database_impl.cpp` mention. -/
structure el_track_row where
  id : Int
  path : String
  deriving DecidableEq, Repr

/-- The struct `el_storage`: the schema version and the content of the tables
(or views) that `el_database_impl.cpp` reads and writes, each as the list of
its rows. `journal` is the list of the statements executed so far by the
mutating operations, oldest first. -/
structure el_storage where
  version : semantic_version
  crate : List crate_row
  crate_parent_list : List crate_parent_list_row
  track : List el_track_row
  crate_track_list : List crate_track_list_row
  journal : List String
  deriving DecidableEq, Repr

/-- A consistent state: crate ids are distinct (primary key), every
`CrateParentList` origin is the id of a crate (foreign key), and every crate
id leaves room for a successor in `int64_t`. -/
def el_storage.consistent (s : el_storage) : Prop :=
  (s.crate.map fun r => r.id).Nodup ∧
  (∀ p ∈ s.crate_parent_list, p.crateOriginId ∈ s.crate.map fun r => r.id) ∧
  (∀ r ∈ s.crate, r.id < 2 ^ 63 - 1)

/-- What the SQL engine receives for a string bound through `name.data()`: a
pointer to characters carries no length, so the text ends before the first
NUL character. -/
def c_str (s : String) : String :=
  String.mk (s.data.takeWhile fun c => c != Char.ofNat 0)

/-- Rows of a query with `ORDER BY` on an integer column. -/
def order_by (ids : List Int) : List Int :=
  ids.insertionSort fun a b => a ≤ b

/-- The statement `SELECT IFNULL(MAX(id), 0) + 1 FROM Crate`. -/
def select_next_crate_id (s : el_storage) : Int :=
  match (s.crate.map fun r => r.id).max? with
  | none => 0 + 1
  | some m => m + 1

/-- The row id that the SQL engine fills in for an `INSERT INTO Crate` without
an id: one more than the largest id of the table, 1 for an empty table. -/
def auto_crate_id (s : el_storage) : Int :=
  match (s.crate.map fun r => r.id).max? with
  | none => 1
  | some m => m + 1

/-! ## Engine v1 database (`enginelibrary/el_database_impl.cpp`) -/

/-- The function `ensure_valid_crate_name`. -/
def ensure_valid_crate_name (name : String) : Except exn Unit :=
  if name = "" then
    .error (.crate_invalid_name "Crate names must be non-empty" name)
  else if name.data.contains ';' then
    .error (.crate_invalid_name "Crate names must not contain semicolons" name)
  else
    .ok ()

/-- The function `el_database_impl::crate_by_id`; a crate handle is its id. -/
def el_database_impl.crate_by_id (s : el_storage) (id : Int) : Except exn (Option Int) :=
  let count := (s.crate.filter fun r => r.id == id).length
  if count == 1 then .ok (some id)
  else if count > 1 then
    .error (.crate_database_inconsistency "More than one crate with the same ID" id)
  else .ok none

/-- The function `el_database_impl::crates`. -/
def el_database_impl.crates (s : el_storage) : List Int :=
  order_by (s.crate.map fun r => r.id)

/-- The function `el_database_impl::root_crates`. -/
def el_database_impl.root_crates (s : el_storage) : List Int :=
  order_by ((s.crate_parent_list.filter fun p => p.crateParentId == p.crateOriginId).map
    fun p => p.crateOriginId)

/-- The function `el_database_impl::create_root_crate`: the state it leaves
and the handle it returns or the exception it throws. The transaction guard
(its class is not among the sources) opens a transaction on construction,
`commit` makes the changes permanent, and leaving by an exception rolls the
tables back. -/
def el_database_impl.create_root_crate (s : el_storage) (name : String) :
    el_storage × Except exn Int :=
  match ensure_valid_crate_name name with
  | .error e => (s, .error e)
  | .ok () =>
    let journal := s.journal ++ ["BEGIN"]
    if s.version.ge version_1_9_1 then
      let id := select_next_crate_id s
      let journal := journal ++ ["SELECT IFNULL(MAX(id), 0) + 1 FROM Crate",
        "INSERT INTO Crate (id, title, path) VALUES (?, ?, ?)"]
      if s.crate.any fun r => r.id == id then
        ({ s with journal := journal ++ ["ROLLBACK"] },
          .error (.external "constraint failed: Crate.id"))
      else
        let crate := s.crate ++ [{ id := id, title := c_str name, path := name ++ ";" }]
        let journal := journal ++
          ["INSERT INTO CrateParentList (crateOriginId, crateParentId) VALUES (?, ?)"]
        let crate_parent_list :=
          s.crate_parent_list ++ [{ crateOriginId := id, crateParentId := id }]
        ({ s with crate := crate, crate_parent_list := crate_parent_list,
                  journal := journal ++ ["COMMIT"] }, .ok id)
    else
      let journal := journal ++ ["INSERT INTO Crate (title, path) VALUES (?, ?)"]
      let id := auto_crate_id s
      let crate := s.crate ++ [{ id := id, title := c_str name, path := name ++ ";" }]
      let journal := journal ++
        ["INSERT INTO CrateParentList (crateOriginId, crateParentId) VALUES (?, ?)"]
      let crate_parent_list :=
        s.crate_parent_list ++ [{ crateOriginId := id, crateParentId := id }]
      ({ s with crate := crate, crate_parent_list := crate_parent_list,
                journal := journal ++ ["COMMIT"] }, .ok id)

/-- The function `el_database_impl::remove_track`; a track handle is its id.
The references to the track are cleared by `ON DELETE CASCADE`. -/
def el_database_impl.remove_track (s : el_storage) (tr : Int) : el_storage :=
  { s with
    track := s.track.filter fun r => !(r.id == tr)
    crate_track_list := s.crate_track_list.filter fun r => !(r.trackId == tr)
    journal := s.journal ++ ["DELETE FROM Track WHERE id = ?"] }

/-- The function `el_database_impl::track_by_id`. -/
def el_database_impl.track_by_id (s : el_storage) (id : Int) : Except exn (Option Int) :=
  let count := (s.track.filter fun r => r.id == id).length
  if count == 1 then .ok (some id)
  else if count > 1 then
    .error (.track_database_inconsistency "More than one track with the same ID" id)
  else .ok none

/-- The function `el_database_impl::tracks`. -/
def el_database_impl.tracks (s : el_storage) : List Int :=
  order_by (s.track.map fun r => r.id)

/-! ## Invariants of the stored blobs -/

/-- The main-cue flag mirrors the comparison of the two main cues. -/
def quick_cues_blob.main_cue_flag_consistent (q : quick_cues_blob) : Bool :=
  q.is_main_cue_adjusted == f64_ne q.default_main_cue q.adjusted_main_cue

/-- When the adjusted grid differs from the default grid, the beat-grid
flag is set. -/
def beat_data_blob.beatgrid_flag_consistent (b : beat_data_blob) : Bool :=
  !(decide (b.adjusted_beat_grid ≠ b.default_beat_grid)) || b.is_beatgrid_set

/-! ## Example states -/

/-- An empty Engine v2 library with uuid `"uuid-1"`. -/
def example_library : engine_library :=
  { information := ⟨"uuid-1", 2, 18, 0⟩, track := ⟨[]⟩ }

/-- The snapshot that only names the file `"a.mp3"`. -/
def example_snapshot : track_snapshot :=
  { relative_path := some "a.mp3" }

/-- The library after `create_track` of `example_snapshot` in
`example_library`. -/
def example_created_library : engine_library :=
  match create_track convert.plain example_library example_snapshot with
  | .ok (lib, _) => lib
  | .error _ => example_library

/-- An Engine v1 database at schema 1.9.1 with two crates (crate 1 is a
child of the root crate 3) and two tracks. -/
def example_storage : el_storage :=
  { version := { maj := 1, min := 9, pat := 1 }
    crate := [⟨3, "Root", "Root;"⟩, ⟨1, "Child", "Root;Child;"⟩]
    crate_parent_list := [⟨3, 3⟩, ⟨1, 3⟩]
    track := [⟨2, "../a.mp3"⟩, ⟨1, "../b.mp3"⟩]
    crate_track_list := [⟨3, 2⟩, ⟨1, 1⟩]
    journal := [] }

/-! ## Reading conversions (`engine/v2/convert_*.hpp`) -/

/-- Modelled from the spec: `convert::read::rating` (not among the sources):
a stored rating of 1..100 is returned, 0 and every value outside the range
read as absent. -/
def convert.read_rating (rating : Int) : Option Int :=
  if rating < 1 ∨ 100 < rating then none else some rating

/-- The reading conversions of `convert_*.hpp` whose bodies are not among the
sources; they are taken as parameters. -/
structure convert_read where
  read_beatgrid_markers : List beat_grid_marker_blob → List beatgrid_marker
  read_main_cue : Nat → Option Nat
  read_average_loudness : track_data_blob → Option Nat
  read_bpm : Option Nat → Option Int → Option Nat
  read_duration : Option Int → Option Int
  read_hot_cues : quick_cues_blob → List (Option hot_cue)
  read_key : Option Int → Option musical_key
  read_loops : loops_blob → List (Option loop)
  read_sampling : track_data_blob → Option sampling_info
  read_waveform : overview_waveform_data_blob → List waveform_entry

/-- A stand-in for the reading conversions taken as parameters: values pass
through and zero reads as absent. -/
def convert_read.plain : convert_read where
  read_beatgrid_markers := fun ms => ms.map fun m =>
    { index := m.beat_number, sample_offset := m.sample_offset }
  read_main_cue := fun c => some c
  read_average_loudness := fun d => if d.average_loudness = 0 then none else some d.average_loudness
  read_bpm := fun analyzed _ => analyzed
  read_duration := fun d => d
  read_hot_cues := fun q => q.quick_cues.map fun c =>
    if c.sample_offset = 0xBFF0000000000000 then none
    else some { label := c.label, sample_offset := c.sample_offset, color := c.color }
  read_key := fun k =>
    match k with
    | none => none
    | some k => if h : 1 ≤ k ∧ k ≤ 24 then some ⟨(k - 1).toNat, by omega⟩ else none
  read_loops := fun l => l.loops.map fun b =>
    if b.is_start_set && b.is_end_set then
      some { label := b.label, start_sample_offset := b.start_sample_offset,
             end_sample_offset := b.end_sample_offset, color := b.color }
    else none
  read_sampling := fun d =>
    if d.sample_rate = 0 then none
    else some { sample_rate := d.sample_rate, sample_count := d.samples }
  read_waveform := fun w => w.entries

/-! ## The track table and track handles, continued -/

/-- Getter `track_table::get_rating`. -/
def track_table.get_rating (t : track_table) (id : Int) : Except exn Int :=
  t.get_column (fun r => r.rating) id

/-- Setter `track_table::set_rating`. -/
def track_table.set_rating (t : track_table) (id : Int) (rating : Int) :
    Except exn track_table :=
  t.set_column (fun r => { r with rating := rating }) id

/-- Getter `track_table::get_path`. -/
def track_table.get_path (t : track_table) (id : Int) : Except exn String :=
  t.get_column (fun r => r.path) id

/-- Setter `track_table::set_path`. -/
def track_table.set_path (t : track_table) (id : Int) (path : String) :
    Except exn track_table :=
  t.set_column (fun r => { r with path := path }) id

/-- Getter `track_table::get_track_data`. -/
def track_table.get_track_data (t : track_table) (id : Int) : Except exn track_data_blob :=
  t.get_column (fun r => r.track_data) id

/-- Setter `track_table::set_track_data`. -/
def track_table.set_track_data (t : track_table) (id : Int) (d : track_data_blob) :
    Except exn track_table :=
  t.set_column (fun r => { r with track_data := d }) id

/-- The function `track_impl::snapshot`. -/
def track_impl.snapshot (cr : convert_read) (lib : engine_library) (id : Int) :
    Except exn track_snapshot :=
  match lib.track.get id with
  | none => .error (.track_deleted id)
  | some row =>
    .ok
      { id := some id
        adjusted_beatgrid := cr.read_beatgrid_markers row.beat_data.adjusted_beat_grid
        adjusted_main_cue := cr.read_main_cue row.quick_cues.adjusted_main_cue
        album := row.album
        artist := row.artist
        average_loudness := cr.read_average_loudness row.track_data
        bitrate := row.bitrate
        bpm := cr.read_bpm row.bpm_analyzed row.bpm
        comment := row.comment
        composer := row.composer
        default_beatgrid := cr.read_beatgrid_markers row.beat_data.default_beat_grid
        default_main_cue := cr.read_main_cue row.quick_cues.default_main_cue
        duration := cr.read_duration row.length
        file_bytes := row.file_bytes
        genre := row.genre
        hot_cues := cr.read_hot_cues row.quick_cues
        key := cr.read_key row.key
        last_accessed_at := none
        last_modified_at := none
        last_played_at := row.time_last_played
        loops := cr.read_loops row.loops
        publisher := row.label
        rating := convert.read_rating row.rating
        relative_path := some row.path
        sampling := cr.read_sampling row.track_data
        title := row.title
        track_number := row.play_order
        waveform := cr.read_waveform row.overview_waveform_data
        year := row.year }

/-- The function `track_impl::relative_path`. -/
def track_impl.relative_path (lib : engine_library) (id : Int) : Except exn String :=
  lib.track.get_path id

/-- The function `track_impl::set_relative_path`. -/
def track_impl.set_relative_path (lib : engine_library) (id : Int) (relative_path : String) :
    Except exn engine_library := do
  let track ← lib.track.set_path id relative_path
  pure { lib with track := track }

/-- The function `track_impl::file_extension`. -/
def track_impl.file_extension (lib : engine_library) (id : Int) : Except exn String := do
  let rel_path ← track_impl.relative_path lib id
  pure ((get_file_extension rel_path).getD "")

/-- The function `track_impl::filename`. -/
def track_impl.filename (lib : engine_library) (id : Int) : Except exn String := do
  let rel_path ← track_impl.relative_path lib id
  pure (get_filename rel_path)

/-- The function `track_impl::is_valid`. -/
def track_impl.is_valid (lib : engine_library) (id : Int) : Bool :=
  lib.track.exists id

/-- The function `track_impl::rating`. -/
def track_impl.rating (lib : engine_library) (id : Int) : Except exn (Option Int) := do
  let rating ← lib.track.get_rating id
  pure (convert.read_rating rating)

/-- The function `track_impl::set_rating`. -/
def track_impl.set_rating (lib : engine_library) (id : Int) (rating : Option Int) :
    Except exn engine_library := do
  let track ← lib.track.set_rating id (convert.write_rating rating)
  pure { lib with track := track }

/-- The function `track_impl::set_sampling`. -/
def track_impl.set_sampling (lib : engine_library) (id : Int) (sampling : Option sampling_info) :
    Except exn engine_library := do
  let converted := convert.write_sampling sampling
  let track_data ← lib.track.get_track_data id
  let track_data := { track_data with samples := converted.track_data_samples }
  let track_data := { track_data with sample_rate := converted.track_data_sample_rate }
  let beat_data ← lib.track.get_beat_data id
  let beat_data := { beat_data with samples := converted.beat_data_samples }
  let beat_data := { beat_data with sample_rate := converted.beat_data_sample_rate }
  let track ← lib.track.set_track_data id track_data
  let track ← track.set_beat_data id beat_data
  pure { lib with track := track }

/-! ## Engine v2 database (`engine/v2/database_impl.cpp`) -/

/-- The function `database_impl::tracks_by_relative_path`; a track handle is
its id. -/
def database_impl.tracks_by_relative_path (_lib : engine_library) (_relative_path : String) :
    Except exn (List Int) :=
  .error (.runtime_error "database_impl::tracks_by_relative_path() - Not implemented yet")

/-! ## More example states -/

/-- Crate ids as the SQL engine assigns them: none is negative and each
leaves room for a successor in `int64_t`. -/
def el_storage.crate_ids_non_negative (s : el_storage) : Prop :=
  ∀ r ∈ s.crate, 0 ≤ r.id ∧ r.id < 2 ^ 63 - 1

/-- An Engine v1 database at schema 1.9.1 whose only crate has the id -1. -/
def example_storage_negative_id : el_storage :=
  { version := { maj := 1, min := 9, pat := 1 }
    crate := [⟨-1, "Odd", "Odd;"⟩]
    crate_parent_list := [⟨-1, -1⟩]
    track := []
    crate_track_list := []
    journal := [] }

/-- The snapshot naming `"a.mp3"` with title, track number and an access
time. -/
def example_snapshot_accessed : track_snapshot :=
  { relative_path := some "a.mp3", title := some "Some Song", track_number := some 1,
    last_accessed_at := some 1700000000, last_modified_at := some 1700000001 }

/-! ## Engine v1 database, continued (`enginelibrary/el_database_impl.cpp`) -/

/-- The function `el_database_impl::root_crate_by_name`: the rows of the join
of `Crate` and `CrateParentList` with the title bound through `name.data()`,
in ascending id order, each overwriting the result. -/
def el_database_impl.root_crate_by_name (s : el_storage) (name : String) : Option Int :=
  let rows := order_by
    ((s.crate.filter fun cr => cr.title == c_str name).flatMap fun cr =>
      (s.crate_parent_list.filter fun cpl =>
        cpl.crateOriginId == cr.id && cpl.crateOriginId == cpl.crateParentId).map
        fun _ => cr.id)
  rows.foldl (fun _ id => some id) none

/-- The crate `i` has the title `title` and a `CrateParentList` row whose
parent is the crate itself. -/
def el_storage.is_root_crate_titled (s : el_storage) (title : String) (i : Int) : Prop :=
  (∃ cr ∈ s.crate, cr.id = i ∧ cr.title = title) ∧
  (∃ cpl ∈ s.crate_parent_list, cpl.crateOriginId = i ∧ cpl.crateParentId = i)

/-! ## Engine v2 database, continued (`engine/v2/database_impl.cpp`)

A crate or track handle is its id. The operations that would write return the
library state they leave together with their outcome. -/

/-- The function `database_impl::begin_transaction`. -/
def database_impl.begin_transaction (lib : engine_library) : engine_library × Except exn Unit :=
  (lib, .error (.runtime_error "database_impl::begin_transaction() - Not implemented yet"))

/-- The function `database_impl::crate_by_id`. -/
def database_impl.crate_by_id (_lib : engine_library) (_id : Int) : Except exn (Option Int) :=
  .error (.runtime_error "database_impl::crate_by_id() - Not implemented yet")

/-- The function `database_impl::crates`. -/
def database_impl.crates (_lib : engine_library) : Except exn (List Int) :=
  .error (.runtime_error "database_impl::crates() - Not implemented yet")

/-- The function `database_impl::crates_by_name`. -/
def database_impl.crates_by_name (_lib : engine_library) (_name : String) :
    Except exn (List Int) :=
  .error (.runtime_error "database_impl::crates_by_name() - Not implemented yet")

/-- The function `database_impl::create_root_crate`. -/
def database_impl.create_root_crate (lib : engine_library) (_name : String) :
    engine_library × Except exn Int :=
  (lib, .error (.runtime_error "database_impl::create_root_crate() - Not implemented yet"))

/-- The function `database_impl::remove_crate`. -/
def database_impl.remove_crate (lib : engine_library) (_cr : Int) :
    engine_library × Except exn Unit :=
  (lib, .error (.runtime_error "database_impl::remove_crate() - Not implemented yet"))

/-- The function `database_impl::remove_track`. -/
def database_impl.remove_track (lib : engine_library) (_tr : Int) :
    engine_library × Except exn Unit :=
  (lib, .error (.runtime_error "database_impl::remove_track() - Not implemented yet"))

/-- The function `database_impl::root_crates`. -/
def database_impl.root_crates (_lib : engine_library) : Except exn (List Int) :=
  .error (.runtime_error "database_impl::root_crates() - Not implemented yet")

/-- The function `database_impl::root_crate_by_name`. -/
def database_impl.root_crate_by_name (_lib : engine_library) (_name : String) :
    Except exn (Option Int) :=
  .error (.runtime_error "database_impl::root_crate_by_name() - Not implemented yet")

/-- The function `database_impl::track_by_id`. -/
def database_impl.track_by_id (lib : engine_library) (id : Int) : Except exn (Option Int) :=
  let track_table := lib.track
  if track_table.exists id then .ok (some id) else .ok none

/-- The function `database_impl::tracks`. -/
def database_impl.tracks (lib : engine_library) : Except exn (List Int) :=
  let track_table := lib.track
  .ok (track_table.all_ids.foldl (fun results id => results ++ [id]) [])

/-! ## Hot cue and loop slots (`engine/v2/track_impl.cpp`) -/

/-- The single-slot conversions of `convert_hot_cues.hpp` and
`convert_loops.hpp`, whose bodies are not among the sources; they are taken as
parameters. -/
structure convert_slot where
  read_hot_cue : quick_cue_blob → Option hot_cue
  write_hot_cue : Option hot_cue → quick_cue_blob
  read_loop : loop_blob → Option loop
  write_loop : Option loop → loop_blob

/-- A stand-in for the single-slot conversions. -/
def convert_slot.plain : convert_slot where
  read_hot_cue := fun c =>
    if c.sample_offset = 0xBFF0000000000000 then none
    else some { label := c.label, sample_offset := c.sample_offset, color := c.color }
  write_hot_cue := fun c =>
    match c with
    | none => { label := "", sample_offset := 0xBFF0000000000000, color := ⟨0, 0, 0, 0⟩ }
    | some c => { label := c.label, sample_offset := c.sample_offset, color := c.color }
  read_loop := fun b =>
    if b.is_start_set && b.is_end_set then
      some { label := b.label, start_sample_offset := b.start_sample_offset,
             end_sample_offset := b.end_sample_offset, color := b.color }
    else none
  write_loop := fun l =>
    match l with
    | none => { label := "", start_sample_offset := 0, end_sample_offset := 0,
                is_start_set := false, is_end_set := false, color := ⟨0, 0, 0, 0⟩ }
    | some l => { label := l.label, start_sample_offset := l.start_sample_offset,
                  end_sample_offset := l.end_sample_offset,
                  is_start_set := true, is_end_set := true, color := l.color }

/-- The outcome of a function that indexes a `std::vector` with `operator[]`:
it returns, it throws, or it touches the element `index` of a vector of `size`
elements with `index` not below `size` (undefined behaviour in C++). -/
inductive access_result (α : Type) where
  | value (a : α)
  | throws (e : exn)
  | out_of_bounds (index : Nat) (size : Nat)
  deriving DecidableEq, Repr

/-- Getter `track_table::get_loops`. -/
def track_table.get_loops (t : track_table) (id : Int) : Except exn loops_blob :=
  t.get_column (fun r => r.loops) id

/-- Setter `track_table::set_loops`. -/
def track_table.set_loops (t : track_table) (id : Int) (l : loops_blob) :
    Except exn track_table :=
  t.set_column (fun r => { r with loops := l }) id

/-- The function `track_impl::hot_cue_at`. The comparison of the `int32_t`
index with `size()` is made after `index < 0` has been excluded, so the
conversion of the index to `size_t` keeps its value. -/
def track_impl.hot_cue_at (cs : convert_slot) (lib : engine_library) (id : Int) (index : Int) :
    access_result (Option hot_cue) :=
  match lib.track.get_quick_cues id with
  | .error e => .throws e
  | .ok quick_cues =>
    if index < 0 ∨ index > quick_cues.quick_cues.length then
      .throws (.out_of_range
        "Request for hot cue at given index exceeds maximum number of cues on track")
    else
      match quick_cues.quick_cues[index.toNat]? with
      | some c => .value (cs.read_hot_cue c)
      | none => .out_of_bounds index.toNat quick_cues.quick_cues.length

/-- The function `track_impl::set_hot_cue_at`. -/
def track_impl.set_hot_cue_at (cs : convert_slot) (lib : engine_library) (id : Int)
    (index : Int) (cue : Option hot_cue) : access_result engine_library :=
  match lib.track.get_quick_cues id with
  | .error e => .throws e
  | .ok quick_cues =>
    if index < 0 ∨ index > quick_cues.quick_cues.length then
      .throws (.out_of_range
        "Request to set hot cue at given index exceeds maximum number of cues on track")
    else if index.toNat < quick_cues.quick_cues.length then
      let quick_cues :=
        { quick_cues with
          quick_cues := quick_cues.quick_cues.set index.toNat (cs.write_hot_cue cue) }
      match lib.track.set_quick_cues id quick_cues with
      | .error e => .throws e
      | .ok track => .value { lib with track := track }
    else
      .out_of_bounds index.toNat quick_cues.quick_cues.length

/-- The function `track_impl::loop_at`. -/
def track_impl.loop_at (cs : convert_slot) (lib : engine_library) (id : Int) (index : Int) :
    access_result (Option loop) :=
  match lib.track.get_loops id with
  | .error e => .throws e
  | .ok loops =>
    if index < 0 ∨ index > loops.loops.length then
      .throws (.out_of_range
        "Request for loop at given index exceeds maximum number of loops on track")
    else
      match loops.loops[index.toNat]? with
      | some l => .value (cs.read_loop l)
      | none => .out_of_bounds index.toNat loops.loops.length

/-- The function `track_impl::set_loop_at`. -/
def track_impl.set_loop_at (cs : convert_slot) (lib : engine_library) (id : Int)
    (index : Int) (l : Option loop) : access_result engine_library :=
  match lib.track.get_loops id with
  | .error e => .throws e
  | .ok loops =>
    if index < 0 ∨ index > loops.loops.length then
      .throws (.out_of_range
        "Request to set loop at given index exceeds maximum number of loops on track")
    else if index.toNat < loops.loops.length then
      let loops := { loops with loops := loops.loops.set index.toNat (cs.write_loop l) }
      match lib.track.set_loops id loops with
      | .error e => .throws e
      | .ok track => .value { lib with track := track }
    else
      .out_of_bounds index.toNat loops.loops.length

/-! ## Waveform sizing (`example/engine_prime.cpp`) -/

/-- The value an `int64_t` holds after an arithmetic result `x` wraps around
(two's complement). -/
def int64_wrap (x : Int) : Int :=
  (x + 2 ^ 63) % 2 ^ 64 - 2 ^ 63

/-- The expression `(sample_count + spe - 1) / spe` of `main`, on `int64_t`
operands: the additions wrap, the division truncates toward zero. -/
def waveform_size (sample_count spe : Int) : Int :=
  Int.tdiv (int64_wrap (int64_wrap (sample_count + spe) - 1)) spe

/-! ## Example states, continued -/

/-- The library `example_created_library` with the track 1 marked as played. -/
def example_played_library : engine_library :=
  match example_created_library.track.set_column (fun r => { r with is_played := true }) 1 with
  | .ok track => { example_created_library with track := track }
  | .error _ => example_created_library

/-- An Engine v1 database with two root crates titled `"A"` (ids 2 and 5), a
child crate titled `"A"` (id 7) and a root crate titled `"B"` (id 9). -/
def example_storage_named : el_storage :=
  { version := { maj := 1, min := 9, pat := 1 }
    crate := [⟨5, "A", "A;"⟩, ⟨2, "A", "A;"⟩, ⟨7, "A", "A;A;"⟩, ⟨9, "B", "B;"⟩]
    crate_parent_list := [⟨5, 5⟩, ⟨2, 2⟩, ⟨7, 5⟩, ⟨9, 9⟩]
    track := []
    crate_track_list := []
    journal := [] }

/-- The database `example_storage` with a second `Crate` row and a second
`Track` row of id 3 (an inconsistent state). -/
def example_storage_duplicates : el_storage :=
  { example_storage with
    crate := example_storage.crate ++ [⟨3, "Again", "Again;"⟩]
    track := [⟨3, "../a.mp3"⟩, ⟨3, "../b.mp3"⟩] }

/-- The snapshot that `snapshot()` returns for the track 1 of
`example_played_library`. -/
def example_played_snapshot : track_snapshot :=
  match track_impl.snapshot convert_read.plain example_played_library 1 with
  | .ok snap => snap
  | .error _ => example_snapshot

/-- The library after `update` of the track 1 of `example_played_library` with
its own snapshot. -/
def example_reupdated_library : engine_library :=
  match track_impl.update convert.plain example_played_library 1 example_played_snapshot with
  | .ok lib => lib
  | .error _ => example_played_library

/-- A snapshot with every field populated, after the track of the test
`create_and_read_track`: 120 bpm, 44100 Hz, a two-marker beat grid, main cue
at sample 2732, one hot cue, one loop and one waveform entry (doubles as bit
patterns). -/
def example_snapshot_full : track_snapshot :=
  { relative_path := some "../01 - Some Artist - Some Song.mp3"
    track_number := some 1
    duration := some 366000
    bpm := some 0x405E000000000000
    year := some 1970
    title := some "Some Song"
    artist := some "Some Artist"
    album := some "Some Album"
    genre := some "Some Genre"
    comment := some "Comment"
    publisher := some "Publisher"
    composer := some "Composer"
    key := some 3
    bitrate := some 320
    rating := some 60
    file_bytes := some 1048576
    average_loudness := some 0x3FE0000000000000
    sampling := some { sample_rate := 0x40E5888000000000, sample_count := 16140600 }
    default_beatgrid := [⟨-4, 0xC0F4574C7AE147AE⟩, ⟨812, 0x4170A950E70624DD⟩]
    adjusted_beatgrid := [⟨-4, 0xC0F4574C7AE147AE⟩, ⟨812, 0x4170A950E70624DD⟩]
    default_main_cue := some 0x40A5580000000000
    adjusted_main_cue := some 0x40A5580000000000
    hot_cues := some ⟨"Cue 1", 0x4135068480000000, ⟨255, 0, 0, 255⟩⟩ :: List.replicate 7 none
    loops := some ⟨"Loop 1", 0x4091E00C49BA5E35, 0x411513EC89374BC7, ⟨0, 255, 0, 255⟩⟩ ::
      List.replicate 7 none
    waveform := [⟨⟨0, 255⟩, ⟨42, 255⟩, ⟨255, 255⟩⟩]
    last_played_at := some 1600000000
    last_accessed_at := some 1700000000
    last_modified_at := some 1700000001 }

/-- The library after `create_track` of `example_snapshot_full` in
`example_library`. -/
def example_full_library : engine_library :=
  match create_track convert.plain example_library example_snapshot_full with
  | .ok (lib, _) => lib
  | .error _ => example_library

/-! ## The rows handed to the track table (`engine/v2/track_impl.cpp`) -/

/-- The part of `track_impl::update` that precedes `track_.update(row)`: the
row that is handed to the track table, or the exception thrown before. -/
def track_impl.update_row (cv : convert) (lib : engine_library) (id : Int)
    (snapshot : track_snapshot) : Except exn track_row :=
  if snapshot.id.isSome && snapshot.id != some id then
    .error (.invalid_track_snapshot
      "Snapshot pertains to a different track, and so it cannot be used to update this track")
  else do
    let information := lib.information
    let row ← snapshot_to_row cv snapshot information
    pure { row with id := id }

/-- The part of `create_track` that precedes `library->track().add(row)`: the
row that is handed to the track table, or the exception thrown before. -/
def create_track_row (cv : convert) (lib : engine_library) (snapshot : track_snapshot) :
    Except exn track_row :=
  if snapshot.id.isSome then
    .error (.invalid_track_snapshot
      "Snapshot already pertains to a persisted track, and so it cannot be created again")
  else
    snapshot_to_row cv snapshot lib.information

/-! ## Lemmas on the primitive codecs -/

theorem be_bytes_length (n w : Nat) : (be_bytes n w).length = n := by
  induction n generalizing w with
  | zero => rfl
  | succ n ih => simp [be_bytes, ih]

theorem be_bytes_lt (n w : Nat) : ∀ x ∈ be_bytes n w, x < 256 := by
  induction n generalizing w with
  | zero => intro x hx; simp [be_bytes] at hx
  | succ n ih =>
    intro x hx
    simp only [be_bytes, List.mem_append, List.mem_singleton] at hx
    rcases hx with hx | hx
    · exact ih _ x hx
    · subst hx; exact Nat.mod_lt _ (by decide)

theorem be_value_snoc (l : List Nat) (b : Nat) :
    be_value (l ++ [b]) = be_value l * 256 + b := by
  simp [be_value, List.foldl_append]

theorem be_value_be_bytes (n w : Nat) : be_value (be_bytes n w) = w % 256 ^ n := by
  induction n generalizing w with
  | zero => simp [be_bytes, be_value, Nat.mod_one]
  | succ n ih =>
    rw [be_bytes, be_value_snoc, ih, pow_succ, Nat.mul_comm (256 ^ n) 256, Nat.mod_mul]
    omega

theorem be_bytes_getElem? (n w i : Nat) (hi : i < n) :
    (be_bytes n w)[i]? = some (w / 256 ^ (n - 1 - i) % 256) := by
  induction n generalizing w with
  | zero => omega
  | succ n ih =>
    rw [be_bytes]
    by_cases h : i < n
    · have he : n - 1 - i + 1 = n + 1 - 1 - i := by omega
      rw [List.getElem?_append_left (by rw [be_bytes_length]; exact h), ih _ h,
        Nat.div_div_eq_div_mul, ← pow_succ', he]
    · have hin : i = n := by omega
      subst hin
      rw [List.getElem?_append_right (by rw [be_bytes_length])]
      simp [be_bytes_length]

theorem be_value_be_bytes_8 (w : Nat) (h : w < 2 ^ 64) : be_value (be_bytes 8 w) = w := by
  rw [be_value_be_bytes, show (256 : Nat) ^ 8 = 2 ^ 64 by norm_num, Nat.mod_eq_of_lt h]

theorem to_signed_to_unsigned_64 (v : Int) (h1 : -(2 : Int) ^ 63 ≤ v) (h2 : v < 2 ^ 63) :
    to_signed 64 (be_value (be_bytes 8 (to_unsigned 64 v))) = v := by
  rw [be_value_be_bytes]
  unfold to_signed to_unsigned
  have e : (256 : Nat) ^ 8 = 2 ^ 64 := by norm_num
  have hlt : (v % 2 ^ 64).toNat < 2 ^ 64 := by
    have := Int.emod_lt_of_pos v (show (0 : Int) < 2 ^ 64 by norm_num)
    have h0 := Int.emod_nonneg v (show (2 : Int) ^ 64 ≠ 0 by norm_num)
    omega
  rw [e, Nat.mod_eq_of_lt hlt]
  have h0 := Int.emod_nonneg v (show (2 : Int) ^ 64 ≠ 0 by norm_num)
  have hc : ((v % 2 ^ 64).toNat : Int) = v % 2 ^ 64 := Int.toNat_of_nonneg h0
  split_ifs with h <;> rw [hc] <;> omega

theorem to_signed_to_unsigned_32 (v : Int) (h1 : -(2 : Int) ^ 31 ≤ v) (h2 : v < 2 ^ 31) :
    to_signed 32 (be_value (be_bytes 4 (to_unsigned 32 v))) = v := by
  rw [be_value_be_bytes]
  unfold to_signed to_unsigned
  have e : (256 : Nat) ^ 4 = 2 ^ 32 := by norm_num
  have hlt : (v % 2 ^ 32).toNat < 2 ^ 32 := by
    have := Int.emod_lt_of_pos v (show (0 : Int) < 2 ^ 32 by norm_num)
    have h0 := Int.emod_nonneg v (show (2 : Int) ^ 32 ≠ 0 by norm_num)
    omega
  rw [e, Nat.mod_eq_of_lt hlt]
  have h0 := Int.emod_nonneg v (show (2 : Int) ^ 32 ≠ 0 by norm_num)
  have hc : ((v % 2 ^ 32).toNat : Int) = v % 2 ^ 32 := Int.toNat_of_nonneg h0
  split_ifs with h <;> rw [hc] <;> omega

theorem take_be_bytes (n k w : Nat) (h : n ≤ k) :
    List.take k (be_bytes n w) = be_bytes n w :=
  List.take_of_length_le (by rw [be_bytes_length]; exact h)

theorem drop_be_bytes (n k w : Nat) (h : n ≤ k) :
    List.drop k (be_bytes n w) = [] :=
  List.drop_eq_nil_of_le (by rw [be_bytes_length]; exact h)

/-- The buffer that `to_blob` compresses is the concatenation of the four
encoded fields, and the write pointer ends at the buffer end. -/
theorem to_blob_run_eq (x : track_data_blob) :
    x.to_blob_run =
      { uncompressed := be_bytes 8 x.sample_rate ++ (be_bytes 8 (to_unsigned 64 x.samples) ++
          (be_bytes 8 x.average_loudness ++ be_bytes 4 (to_unsigned 32 x.key))),
        ptr := 28, end_ := 28 } := by
  have l1 := be_bytes_length 8 x.sample_rate
  have l2 := be_bytes_length 8 (to_unsigned 64 x.samples)
  have l3 := be_bytes_length 8 x.average_loudness
  have l4 := be_bytes_length 4 (to_unsigned 32 x.key)
  simp only [track_data_blob.to_blob_run, encode_double_be, encode_int64_be, encode_int32_be,
    write_at, l1, l2, l3, l4]
  simp [List.take_append_eq_append_take, List.drop_append_eq_append_drop, l1, l2, l3, l4,
    take_be_bytes, drop_be_bytes]

theorem to_blob_run_bytes (x : track_data_blob) :
    ∀ b ∈ x.to_blob_run.uncompressed, b < 256 := by
  intro b hb
  rw [to_blob_run_eq] at hb
  simp only [List.mem_append] at hb
  rcases hb with hb | hb | hb | hb <;> exact be_bytes_lt _ _ b hb

theorem from_uncompressed_to_blob_run (x : track_data_blob) (hx : x.representable) :
    (track_data_blob.from_uncompressed x.to_blob_run.uncompressed).result = .ok x := by
  obtain ⟨h1, ⟨h2, h3⟩, h4, h5, h6⟩ := hx
  have l1 := be_bytes_length 8 x.sample_rate
  have l2 := be_bytes_length 8 (to_unsigned 64 x.samples)
  have l3 := be_bytes_length 8 x.average_loudness
  have l4 := be_bytes_length 4 (to_unsigned 32 x.key)
  rw [to_blob_run_eq]
  simp only [track_data_blob.from_uncompressed, decode_double_be, decode_int64_be,
    decode_int32_be, read_at]
  simp [List.take_append_eq_append_take, List.drop_append_eq_append_drop, l1, l2, l3, l4,
    take_be_bytes, drop_be_bytes, be_value_be_bytes_8 _ h1, be_value_be_bytes_8 _ h4,
    to_signed_to_unsigned_64 _ h2 h3, to_signed_to_unsigned_32 _ h5 h6]

/-! ## Track-data blob: claims -/

/-- C1: for every representable `track_data_blob` value `x` (doubles compared
by their 64-bit pattern), and assuming `zlib_uncompress (zlib_compress b) = b`
for every byte string `b`, `from_blob (to_blob x)` succeeds and returns `x`. -/
theorem from_blob_to_blob (z : zlib) (hz : z.round_trips) (x : track_data_blob)
    (hx : x.representable) :
    track_data_blob.from_blob z (track_data_blob.to_blob z x) = .ok x := by
  unfold track_data_blob.from_blob track_data_blob.to_blob
  rw [hz _ (to_blob_run_bytes x)]
  exact from_uncompressed_to_blob_run x hx

/-- Witness for C1: the stored codec round-trips, and the blob of a 44.1 kHz
track with 16140600 samples, loudness 0.5 and key -3 decodes to itself. -/
theorem from_blob_to_blob_witness :
    zlib.stored.round_trips ∧
    (track_data_blob.mk 0x40E5888000000000 16140600 0x3FE0000000000000 (-3)).representable ∧
    track_data_blob.from_blob zlib.stored
      (track_data_blob.to_blob zlib.stored
        (track_data_blob.mk 0x40E5888000000000 16140600 0x3FE0000000000000 (-3))) =
      .ok (track_data_blob.mk 0x40E5888000000000 16140600 0x3FE0000000000000 (-3)) :=
  have hz : zlib.stored.round_trips := fun _ _ => rfl
  have hx : (track_data_blob.mk 0x40E5888000000000 16140600 0x3FE0000000000000
      (-3)).representable := by
    unfold track_data_blob.representable; norm_num
  ⟨hz, hx, from_blob_to_blob zlib.stored hz _ hx⟩

/-- C2: for every zlib wrapper, what `to_blob` returns is `zlib_compress` of
the buffer `uncompressed` that its body filled, and that payload has exactly
28 bytes; byte `i` of each field is the digit of weight `256^(width-1-i)` of
the field's pattern (big-endian): `sample_rate` at 0-7, `samples` (two's
complement, 64 bits) at 8-15, `average_loudness` at 16-23, `key` (two's
complement, 32 bits) at 24-27; and the write pointer equals the buffer end at
the assertion. -/
theorem to_blob_payload_layout (z : zlib) (x : track_data_blob) :
    track_data_blob.to_blob z x = z.zlib_compress x.to_blob_run.uncompressed ∧
    (track_data_blob.to_blob zlib.stored x).length = 28 ∧
    x.to_blob_run.uncompressed.length = 28 ∧
    (∀ b ∈ x.to_blob_run.uncompressed, b < 256) ∧
    (∀ i, i < 8 → x.to_blob_run.uncompressed[i]? =
      some (x.sample_rate / 256 ^ (7 - i) % 256)) ∧
    (∀ i, i < 8 → x.to_blob_run.uncompressed[8 + i]? =
      some (to_unsigned 64 x.samples / 256 ^ (7 - i) % 256)) ∧
    (∀ i, i < 8 → x.to_blob_run.uncompressed[16 + i]? =
      some (x.average_loudness / 256 ^ (7 - i) % 256)) ∧
    (∀ i, i < 4 → x.to_blob_run.uncompressed[24 + i]? =
      some (to_unsigned 32 x.key / 256 ^ (3 - i) % 256)) ∧
    x.to_blob_run.ptr = x.to_blob_run.end_ ∧
    x.to_blob_run.end_ = x.to_blob_run.uncompressed.length := by
  have l1 := be_bytes_length 8 x.sample_rate
  have l2 := be_bytes_length 8 (to_unsigned 64 x.samples)
  have l3 := be_bytes_length 8 x.average_loudness
  have l4 := be_bytes_length 4 (to_unsigned 32 x.key)
  have hlen : x.to_blob_run.uncompressed.length = 28 := by
    rw [to_blob_run_eq]; simp [l1, l2, l3, l4]
  refine ⟨rfl, hlen, hlen, to_blob_run_bytes x, ?_, ?_, ?_, ?_, ?_, ?_⟩
  · intro i hi
    rw [to_blob_run_eq]
    simp only
    rw [List.getElem?_append_left (by omega), be_bytes_getElem? 8 _ i hi]
  · intro i hi
    rw [to_blob_run_eq]
    simp only
    rw [List.getElem?_append_right (by omega), l1,
      List.getElem?_append_left (by omega), show 8 + i - 8 = i by omega,
      be_bytes_getElem? 8 _ i hi]
  · intro i hi
    rw [to_blob_run_eq]
    simp only
    rw [List.getElem?_append_right (by omega), l1,
      List.getElem?_append_right (by omega), l2,
      List.getElem?_append_left (by omega), show 16 + i - 8 - 8 = i by omega,
      be_bytes_getElem? 8 _ i hi]
  · intro i hi
    rw [to_blob_run_eq]
    simp only
    rw [List.getElem?_append_right (by omega), l1,
      List.getElem?_append_right (by omega), l2,
      List.getElem?_append_right (by omega), l3, show 24 + i - 8 - 8 - 8 = i by omega,
      be_bytes_getElem? 4 _ i hi]
  · rw [to_blob_run_eq]
  · rw [to_blob_run_eq]; simp [l1, l2, l3, l4]

/-- C3: when `zlib_uncompress` turns the blob `b` into the payload `p`,
`from_blob b` succeeds if and only if `p` has length 28; for any other length
it throws with the read pointer still at the start of the payload (no decoder
has run), and on success the read pointer equals the end pointer, 28. -/
theorem from_blob_succeeds_iff (z : zlib) (b p : List Nat)
    (h : z.zlib_uncompress b = .ok p) :
    ((∃ x, track_data_blob.from_blob z b = .ok x) ↔ p.length = 28) ∧
    track_data_blob.from_blob z b = (track_data_blob.from_uncompressed p).result ∧
    (p.length ≠ 28 →
      track_data_blob.from_blob z b = .error (.invalid_argument
        "Track data blob doesn't have expected decompressed length of 28 bytes") ∧
      (track_data_blob.from_uncompressed p).ptr = 0) ∧
    (p.length = 28 →
      (track_data_blob.from_uncompressed p).ptr = 28 ∧
      (track_data_blob.from_uncompressed p).ptr = (track_data_blob.from_uncompressed p).end_) := by
  have hb : track_data_blob.from_blob z b = (track_data_blob.from_uncompressed p).result := by
    unfold track_data_blob.from_blob; rw [h]
  refine ⟨?_, hb, ?_, ?_⟩
  · rw [hb]
    by_cases hp : p.length = 28
    · simp [track_data_blob.from_uncompressed, hp, decode_double_be, decode_int64_be,
        decode_int32_be]
    · simp [track_data_blob.from_uncompressed, hp]
  · intro hp
    rw [hb]
    simp [track_data_blob.from_uncompressed, hp]
  · intro hp
    simp [track_data_blob.from_uncompressed, hp, decode_double_be, decode_int64_be,
      decode_int32_be]

/-- Witness for C3: a stored payload of 28 zero bytes decodes, a stored
payload of three bytes is rejected with the read pointer at the start. -/
theorem from_blob_succeeds_iff_witness :
    (∃ x, track_data_blob.from_blob zlib.stored (List.replicate 28 0) = .ok x) ∧
    (track_data_blob.from_blob zlib.stored [1, 2, 3] = .error (.invalid_argument
        "Track data blob doesn't have expected decompressed length of 28 bytes") ∧
      (track_data_blob.from_uncompressed [1, 2, 3]).ptr = 0) :=
  ⟨(from_blob_succeeds_iff zlib.stored (List.replicate 28 0) (List.replicate 28 0) rfl).1.mpr rfl,
   (from_blob_succeeds_iff zlib.stored [1, 2, 3] [1, 2, 3] rfl).2.2.1 (by decide)⟩

/-! ## The snapshot to row mapping: lemmas -/

theorem snapshot_to_row_quick_cues (cv : convert) (s : track_snapshot) (info : information_row)
    (row : track_row) (h : snapshot_to_row cv s info = .ok row) :
    row.quick_cues.main_cue_flag_consistent = true := by
  unfold snapshot_to_row at h
  split at h
  · cases h
  · dsimp only at h
    split at h
    · cases h
    · cases h
      simp [quick_cues_blob.main_cue_flag_consistent]

theorem snapshot_to_row_origin (cv : convert) (s : track_snapshot) (info : information_row)
    (row : track_row) (h : snapshot_to_row cv s info = .ok row) :
    row.origin_database_uuid = info.uuid ∧ row.origin_track_id = 0 := by
  unfold snapshot_to_row at h
  split at h
  · cases h
  · dsimp only at h
    split at h
    · cases h
    · cases h
      exact ⟨rfl, rfl⟩

/-! ## Main cue and beat grid flags: claims -/

/-- C4: the row that `snapshot_to_row` builds has `is_main_cue_adjusted` equal
to `default_main_cue != adjusted_main_cue`, but `set_adjusted_main_cue` stores
the new offset without recomputing the flag: on a track created with both main
cues at 0.0 the flag is consistent (first component), and after
`set_adjusted_main_cue(5.0)` the flag is still false while the two cues differ
(second to fourth component). -/
theorem set_adjusted_main_cue_leaves_flag :
    (do
      let (lib, id) ← create_track convert.plain example_library example_snapshot
      let before ← lib.track.get_quick_cues id
      let lib ← track_impl.set_adjusted_main_cue lib id 0x4014000000000000
      let after ← lib.track.get_quick_cues id
      pure (before.main_cue_flag_consistent,
        after.is_main_cue_adjusted,
        f64_ne after.default_main_cue after.adjusted_main_cue,
        after.main_cue_flag_consistent)) =
    (Except.ok (true, false, true, false) : Except exn (Bool × Bool × Bool × Bool)) := by
  rfl

/-- The same slip in `set_default_main_cue`. -/
theorem set_default_main_cue_leaves_flag :
    (do
      let (lib, id) ← create_track convert.plain example_library example_snapshot
      let before ← lib.track.get_quick_cues id
      let lib ← track_impl.set_default_main_cue lib id 0x4014000000000000
      let after ← lib.track.get_quick_cues id
      pure (before.main_cue_flag_consistent,
        after.is_main_cue_adjusted,
        f64_ne after.default_main_cue after.adjusted_main_cue,
        after.main_cue_flag_consistent)) =
    (Except.ok (true, false, true, false) : Except exn (Bool × Bool × Bool × Bool)) := by
  rfl

/-- C5: `set_default_beatgrid` stores the new default grid without touching
`is_beatgrid_set`: on a track whose two grids are empty and whose flag is
false the invariant holds (first component), and after
`set_default_beatgrid` with one marker the adjusted grid differs from the
default grid while the flag is still false (second to fourth component). -/
theorem set_default_beatgrid_leaves_flag :
    (do
      let (lib, id) ← create_track convert.plain example_library example_snapshot
      let before ← lib.track.get_beat_data id
      let lib ← track_impl.set_default_beatgrid lib id [{ index := 0, sample_offset := 0 }]
      let after ← lib.track.get_beat_data id
      pure (before.beatgrid_flag_consistent,
        after.is_beatgrid_set,
        decide (after.adjusted_beat_grid ≠ after.default_beat_grid),
        after.beatgrid_flag_consistent)) =
    (Except.ok (true, false, true, false) : Except exn (Bool × Bool × Bool × Bool)) := by
  rfl

/-! ## The track table: lemmas -/

theorem foldl_max_bounds (l : List Int) (a : Int) :
    a ≤ l.foldl max a ∧ ∀ x ∈ l, x ≤ l.foldl max a := by
  induction l generalizing a with
  | nil => simp
  | cons y ys ih =>
    obtain ⟨h1, h2⟩ := ih (max a y)
    refine ⟨le_trans (le_max_left a y) h1, ?_⟩
    intro x hx
    rcases List.mem_cons.mp hx with hx | hx
    · subst hx; exact le_trans (le_max_right a x) h1
    · exact h2 x hx

theorem track_table.one_le_next_id (t : track_table) : 1 ≤ t.next_id := by
  have := (foldl_max_bounds t.all_ids 0).1
  unfold track_table.next_id
  omega

theorem track_table.id_lt_next_id (t : track_table) (r : track_row) (hr : r ∈ t.rows) :
    r.id < t.next_id := by
  have := (foldl_max_bounds t.all_ids 0).2 r.id (List.mem_map.mpr ⟨r, hr, rfl⟩)
  unfold track_table.next_id
  omega

theorem track_table.get_add (t : track_table) (row : track_row) :
    (t.add row).1.get (t.add row).2 = some { row with id := t.next_id } := by
  have hnone : t.rows.find? (fun r => r.id == t.next_id) = none := by
    rw [List.find?_eq_none]
    intro r hr
    have := t.id_lt_next_id r hr
    simp only [beq_iff_eq]
    omega
  simp [track_table.add, track_table.get, List.find?_append, hnone]

theorem find?_map_replace (l : List track_row) (id : Int) (f : track_row → track_row)
    (hf : ∀ r, r.id = id → (f r).id = id) :
    (l.map fun r => if r.id == id then f r else r).find? (fun r => r.id == id) =
      (l.find? fun r => r.id == id).map f := by
  induction l with
  | nil => rfl
  | cons y ys ih =>
    by_cases hy : y.id = id
    · have h1 : ((f y).id == id) = true := by rw [beq_iff_eq]; exact hf y hy
      have h2 : (y.id == id) = true := by rw [beq_iff_eq]; exact hy
      simp only [List.map_cons, List.find?_cons, h2, if_true, h1, Option.map_some']
    · have h2 : (y.id == id) = false := by rw [beq_eq_false_iff_ne]; exact hy
      simp only [List.map_cons, List.find?_cons, h2, Bool.false_eq_true, if_false]
      exact ih

theorem track_table.exists_iff_get (t : track_table) (id : Int) :
    t.exists id = true ↔ ∃ r, t.get id = some r := by
  unfold track_table.exists track_table.get
  rw [← Option.isSome_iff_exists, List.find?_isSome, List.any_eq_true]

theorem track_table.get_update (t t' : track_table) (row : track_row)
    (h : t.update row = .ok t') : t'.get row.id = some row := by
  unfold track_table.update at h
  split at h
  · rename_i hex
    cases h
    obtain ⟨r, hr⟩ := (t.exists_iff_get row.id).mp hex
    unfold track_table.get at hr ⊢
    rw [find?_map_replace _ _ (fun _ => row) (fun _ _ => rfl), hr]
    rfl
  · cases h

theorem track_impl.import_info_of_get (lib : engine_library) (id : Int) (r : track_row)
    (h : lib.track.get id = some r) :
    track_impl.import_info lib id =
      .ok (if r.origin_database_uuid == lib.information.uuid && r.origin_track_id == id
        then none
        else some { external_db_uuid := r.origin_database_uuid,
                    external_track_id := r.origin_track_id }) := by
  simp only [track_impl.import_info, track_table.get_origin_database_uuid,
    track_table.get_origin_track_id, track_table.get_column, h, bind, Except.bind]
  split <;> rfl

theorem create_track_ok (cv : convert) (lib lib' : engine_library) (s : track_snapshot)
    (i : Int) (h : create_track cv lib s = .ok (lib', i)) :
    ∃ row, snapshot_to_row cv s lib.information = .ok row ∧
      lib' = { lib with track := (lib.track.add row).1 } ∧ i = lib.track.next_id := by
  unfold create_track at h
  split at h
  · cases h
  · cases hrow : snapshot_to_row cv s lib.information with
    | error e => simp only [hrow, bind, Except.bind] at h; cases h
    | ok row =>
      simp only [hrow, bind, Except.bind, pure, Except.pure, track_table.add] at h
      cases h
      exact ⟨row, rfl, rfl, rfl⟩

theorem update_ok (cv : convert) (lib lib' : engine_library) (s : track_snapshot)
    (i : Int) (h : track_impl.update cv lib i s = .ok lib') :
    ∃ row track, snapshot_to_row cv s lib.information = .ok row ∧
      lib.track.update { row with id := i } = .ok track ∧
      lib' = { lib with track := track } := by
  unfold track_impl.update at h
  split at h
  · cases h
  · cases hrow : snapshot_to_row cv s lib.information with
    | error e => simp only [hrow, bind, Except.bind] at h; cases h
    | ok row =>
      cases hupd : lib.track.update { row with id := i } with
      | error e =>
        simp only [hrow, bind, Except.bind, hupd] at h
        cases h
      | ok track =>
        simp only [hrow, bind, Except.bind, hupd, pure, Except.pure] at h
        cases h
        exact ⟨row, track, rfl, hupd, rfl⟩

/-! ## Origin of mapped rows: lemmas and claims -/

theorem create_track_eq_create_track_row (cv : convert) (lib : engine_library)
    (s : track_snapshot) :
    create_track cv lib s =
      match create_track_row cv lib s with
      | .ok row => .ok ({ lib with track := (lib.track.add row).1 }, (lib.track.add row).2)
      | .error e => .error e := by
  unfold create_track create_track_row
  split
  · rfl
  · cases hrow : snapshot_to_row cv s lib.information with
    | error e => simp only [hrow, bind, Except.bind]
    | ok row => simp only [hrow, bind, Except.bind, pure, Except.pure]

/-- The row that `update` hands to the track table has the handle's id and the
origin track id 0, for every snapshot and every id. -/
theorem track_impl.update_row_origin (cv : convert) (lib : engine_library) (id : Int)
    (s : track_snapshot) (row : track_row) (h : track_impl.update_row cv lib id s = .ok row) :
    row.id = id ∧ row.origin_database_uuid = lib.information.uuid ∧ row.origin_track_id = 0 := by
  unfold track_impl.update_row at h
  split at h
  · cases h
  · cases hrow : snapshot_to_row cv s lib.information with
    | error e => simp only [hrow, bind, Except.bind] at h; cases h
    | ok r =>
      simp only [hrow, bind, Except.bind, pure, Except.pure] at h
      cases h
      obtain ⟨hu, h0⟩ := snapshot_to_row_origin cv s lib.information r hrow
      exact ⟨rfl, hu, h0⟩

theorem max?_bound (l : List Int) (m : Int) (h : l.max? = some m) : ∀ x ∈ l, x ≤ m :=
  (List.max?_le_iff (fun _ _ _ => max_le_iff) h).mp (le_refl m)

theorem select_next_crate_id_eq (s : el_storage) : select_next_crate_id s = auto_crate_id s := by
  unfold select_next_crate_id auto_crate_id
  split <;> rfl

theorem auto_crate_id_fresh (s : el_storage) (r : crate_row) (hr : r ∈ s.crate) :
    r.id < auto_crate_id s := by
  unfold auto_crate_id
  split
  · rename_i hnone
    rw [List.max?_eq_none_iff, List.map_eq_nil_iff] at hnone
    rw [hnone] at hr
    cases hr
  · rename_i m hm
    have := max?_bound _ m hm r.id (List.mem_map.mpr ⟨r, hr, rfl⟩)
    omega

theorem mem_order_by (l : List Int) (x : Int) : x ∈ order_by l ↔ x ∈ l :=
  List.mem_insertionSort _

theorem ensure_valid_crate_name_ok (name : String) :
    ensure_valid_crate_name name = .ok () ↔ name ≠ "" ∧ ';' ∉ name.data := by
  unfold ensure_valid_crate_name
  by_cases h1 : name = ""
  · simp [h1]
  · by_cases h2 : ';' ∈ name.data
    · simp [h1, h2]
    · simp [h1, h2]

theorem ensure_valid_crate_name_error (name : String) :
    (∃ msg, ensure_valid_crate_name name = .error (.crate_invalid_name msg name)) ↔
      (name = "" ∨ ';' ∈ name.data) := by
  unfold ensure_valid_crate_name
  by_cases h1 : name = ""
  · simp [h1]
  · by_cases h2 : ';' ∈ name.data
    · simp [h1, h2]
    · simp [h1, h2]

/-- For a valid name `create_root_crate` appends one `Crate` row and one
`CrateParentList` row under the next id, on both schema paths. -/
theorem create_root_crate_valid (s : el_storage) (name : String)
    (h : ensure_valid_crate_name name = .ok ()) :
    ∃ journal, el_database_impl.create_root_crate s name =
      ({ s with
          crate := s.crate ++
            [{ id := auto_crate_id s, title := c_str name, path := name ++ ";" }]
          crate_parent_list := s.crate_parent_list ++
            [{ crateOriginId := auto_crate_id s, crateParentId := auto_crate_id s }]
          journal := journal }, .ok (auto_crate_id s)) := by
  have hfresh : (s.crate.any fun r => r.id == auto_crate_id s) = false := by
    rw [List.any_eq_false]
    intro r hr
    have := auto_crate_id_fresh s r hr
    simp only [beq_iff_eq]
    omega
  unfold el_database_impl.create_root_crate
  rw [h]
  by_cases hv : s.version.ge version_1_9_1 = true
  · simp only [hv, if_true, select_next_crate_id_eq, hfresh, Bool.false_eq_true, if_false]
    exact ⟨_, rfl⟩
  · simp only [hv, if_false]
    exact ⟨_, rfl⟩

theorem c_str_of_no_nul (name : String) (h : Char.ofNat 0 ∉ name.data) : c_str name = name := by
  unfold c_str
  have : name.data.takeWhile (fun c => c != Char.ofNat 0) = name.data := by
    rw [List.takeWhile_eq_self_iff]
    intro c hc
    simp only [bne_iff_ne, ne_eq]
    intro hc0
    exact h (hc0 ▸ hc)
  rw [this]

/-! ## Engine v1 database: claims -/

/-- Counterexample for C7: `"A\x00B"` is a valid crate name (not empty, no
semicolon) and `example_storage` is consistent; `create_root_crate` returns
the crate 4, whose `Crate` row has the title `"A"`, not the name. -/
theorem create_root_crate_title_counterexample :
    example_storage.consistent ∧
    ensure_valid_crate_name "A\x00B" = .ok () ∧
    (el_database_impl.create_root_crate example_storage "A\x00B").2 = .ok 4 ∧
    ((el_database_impl.create_root_crate example_storage "A\x00B").1.crate.filter
      fun r => r.id == 4) = [{ id := 4, title := "A", path := "A\x00B;" }] ∧
    "A" ≠ "A\x00B" := by
  refine ⟨?_, rfl, rfl, rfl, by decide⟩
  unfold el_storage.consistent
  decide

/-- C7 (amended): for every valid crate name (not empty, no `;`) and every
consistent Engine v1 state, `create_root_crate` returns a crate id `i` such
that afterwards `Crate` holds exactly one row with id `i`, whose title is the
name cut before its first NUL character (the name itself when it has none);
`CrateParentList` holds the row `(i, i)` and no row giving `i` another
parent; `crate_by_id i` is present; and `i` is in `crates()` and in
`root_crates()`. -/
theorem create_root_crate_creates (s : el_storage) (name : String) (hs : s.consistent)
    (h1 : name ≠ "") (h2 : ';' ∉ name.data) :
    ∃ i, (el_database_impl.create_root_crate s name).2 = .ok i ∧
      (∃ r, ((el_database_impl.create_root_crate s name).1.crate.filter fun r => r.id == i) = [r] ∧
        r.title = c_str name ∧ (Char.ofNat 0 ∉ name.data → r.title = name)) ∧
      ({ crateOriginId := i, crateParentId := i } : crate_parent_list_row) ∈
        (el_database_impl.create_root_crate s name).1.crate_parent_list ∧
      (∀ p ∈ (el_database_impl.create_root_crate s name).1.crate_parent_list,
        p.crateOriginId = i → p.crateParentId = i) ∧
      el_database_impl.crate_by_id (el_database_impl.create_root_crate s name).1 i =
        .ok (some i) ∧
      i ∈ el_database_impl.crates (el_database_impl.create_root_crate s name).1 ∧
      i ∈ el_database_impl.root_crates (el_database_impl.create_root_crate s name).1 := by
  obtain ⟨journal, hc⟩ :=
    create_root_crate_valid s name ((ensure_valid_crate_name_ok name).mpr ⟨h1, h2⟩)
  obtain ⟨_, hfk, _⟩ := hs
  have hold : (s.crate.filter fun r => r.id == auto_crate_id s) = [] := by
    rw [List.filter_eq_nil_iff]
    intro r hr
    have := auto_crate_id_fresh s r hr
    simp only [beq_iff_eq]
    omega
  have hfilter : List.filter (fun r => r.id == auto_crate_id s)
      (s.crate ++ [crate_row.mk (auto_crate_id s) (c_str name) (name ++ ";")]) =
      [crate_row.mk (auto_crate_id s) (c_str name) (name ++ ";")] := by
    rw [List.filter_append, hold]
    simp
  rw [hc]
  refine ⟨auto_crate_id s, rfl, ⟨_, hfilter, rfl, c_str_of_no_nul name⟩, ?_, ?_, ?_, ?_, ?_⟩
  · simp
  · intro p hp ho
    simp only [List.mem_append, List.mem_singleton] at hp
    rcases hp with hp | hp
    · obtain ⟨r, hr, hid⟩ := List.mem_map.mp (hfk p hp)
      have := auto_crate_id_fresh s r hr
      omega
    · rw [hp]
  · simp only [el_database_impl.crate_by_id, hfilter]
    rfl
  · rw [el_database_impl.crates, mem_order_by]
    simp
  · rw [el_database_impl.root_crates, mem_order_by]
    simp

/-- Witness for C7 (amended): the crate `"Example Root Crate"` created in
`example_storage`. -/
theorem create_root_crate_creates_witness :
    ∃ i, (el_database_impl.create_root_crate example_storage "Example Root Crate").2 = .ok i ∧
      (∃ r, ((el_database_impl.create_root_crate example_storage
          "Example Root Crate").1.crate.filter fun r => r.id == i) = [r] ∧
        r.title = c_str "Example Root Crate" ∧
        (Char.ofNat 0 ∉ "Example Root Crate".data → r.title = "Example Root Crate")) ∧
      ({ crateOriginId := i, crateParentId := i } : crate_parent_list_row) ∈
        (el_database_impl.create_root_crate example_storage
          "Example Root Crate").1.crate_parent_list ∧
      (∀ p ∈ (el_database_impl.create_root_crate example_storage
          "Example Root Crate").1.crate_parent_list,
        p.crateOriginId = i → p.crateParentId = i) ∧
      el_database_impl.crate_by_id
        (el_database_impl.create_root_crate example_storage "Example Root Crate").1 i =
        .ok (some i) ∧
      i ∈ el_database_impl.crates
        (el_database_impl.create_root_crate example_storage "Example Root Crate").1 ∧
      i ∈ el_database_impl.root_crates
        (el_database_impl.create_root_crate example_storage "Example Root Crate").1 :=
  create_root_crate_creates example_storage "Example Root Crate"
    (by unfold el_storage.consistent; decide) (by decide) (by decide)

/-- C8: `create_root_crate name` throws `crate_invalid_name` carrying `name`
if and only if `name` is empty or contains `;`; in that case the state it
leaves is the state it was given, tables and statement journal alike (no
statement has been executed). -/
theorem create_root_crate_invalid_name (s : el_storage) (name : String) :
    ((∃ msg, (el_database_impl.create_root_crate s name).2 =
        .error (.crate_invalid_name msg name)) ↔ (name = "" ∨ ';' ∈ name.data)) ∧
    ((name = "" ∨ ';' ∈ name.data) → (el_database_impl.create_root_crate s name).1 = s) := by
  constructor
  · constructor
    · rintro ⟨msg, hmsg⟩
      by_contra hn
      push_neg at hn
      obtain ⟨journal, hc⟩ :=
        create_root_crate_valid s name ((ensure_valid_crate_name_ok name).mpr hn)
      rw [hc] at hmsg
      cases hmsg
    · intro h
      obtain ⟨msg, hmsg⟩ := (ensure_valid_crate_name_error name).mpr h
      refine ⟨msg, ?_⟩
      unfold el_database_impl.create_root_crate
      rw [hmsg]
  · intro h
    obtain ⟨msg, hmsg⟩ := (ensure_valid_crate_name_error name).mpr h
    unfold el_database_impl.create_root_crate
    rw [hmsg]

/-- Witness for C8: the name `"Hip;Hop"` on `example_storage`. -/
theorem create_root_crate_invalid_name_witness :
    (el_database_impl.create_root_crate example_storage "Hip;Hop").2 =
      .error (.crate_invalid_name "Crate names must not contain semicolons" "Hip;Hop") ∧
    (el_database_impl.create_root_crate example_storage "Hip;Hop").1 = example_storage :=
  ⟨rfl, (create_root_crate_invalid_name example_storage "Hip;Hop").2 (Or.inr (by decide))⟩

/-- C9: after `remove_track tr`, `track_by_id` of that id returns absent,
`tracks()` does not contain the id, and every other id that `tracks()`
returned before is still returned. -/
theorem remove_track_removes (s : el_storage) (tr : Int) :
    el_database_impl.track_by_id (el_database_impl.remove_track s tr) tr = .ok none ∧
    tr ∉ el_database_impl.tracks (el_database_impl.remove_track s tr) ∧
    (∀ j ∈ el_database_impl.tracks s, j ≠ tr →
      j ∈ el_database_impl.tracks (el_database_impl.remove_track s tr)) := by
  refine ⟨?_, ?_, ?_⟩
  · have : ((s.track.filter fun r => !(r.id == tr)).filter fun r => r.id == tr) = [] := by
      rw [List.filter_eq_nil_iff]
      intro r hr
      have := (List.mem_filter.mp hr).2
      simpa using this
    simp only [el_database_impl.track_by_id, el_database_impl.remove_track, this]
    rfl
  · rw [el_database_impl.tracks, mem_order_by]
    simp [el_database_impl.remove_track]
  · intro j hj hne
    rw [el_database_impl.tracks, mem_order_by] at hj ⊢
    obtain ⟨r, hr, hid⟩ := List.mem_map.mp hj
    refine List.mem_map.mpr ⟨r, ?_, hid⟩
    simp only [el_database_impl.remove_track, List.mem_filter]
    refine ⟨hr, ?_⟩
    simp only [Bool.not_eq_true', beq_eq_false_iff_ne, ne_eq]
    rw [hid]
    exact hne

/-- Witness for C9: removing track 2 of `example_storage` keeps track 1. -/
theorem remove_track_removes_witness :
    el_database_impl.tracks example_storage = [1, 2] ∧
    el_database_impl.track_by_id (el_database_impl.remove_track example_storage 2) 2 = .ok none ∧
    (2 : Int) ∉ el_database_impl.tracks (el_database_impl.remove_track example_storage 2) ∧
    (1 : Int) ∈ el_database_impl.tracks (el_database_impl.remove_track example_storage 2) :=
  ⟨rfl, (remove_track_removes example_storage 2).1, (remove_track_removes example_storage 2).2.1,
    (remove_track_removes example_storage 2).2.2 1 (by decide) (by decide)⟩

/-! ## Relative paths: lemmas -/

theorem get_filename_idem (p : String) : get_filename (get_filename p) = get_filename p := by
  unfold get_filename
  simp only [List.reverse_reverse, List.takeWhile_idem]

theorem get_file_extension_filename (p : String) :
    get_file_extension (get_filename p) =
      if (get_filename p).data.contains '.' then some (after_last_dot (get_filename p))
      else none := by
  unfold get_file_extension
  simp only [get_filename_idem]

/-- The mapping `snapshot_to_row` throws `invalid_track_snapshot` exactly when
`relative_path` is absent or `get_file_extension` of the file name returns no
value; nothing else in its body throws. -/
theorem snapshot_to_row_error_iff (cv : convert) (s : track_snapshot) (info : information_row) :
    (∃ msg, snapshot_to_row cv s info = .error (.invalid_track_snapshot msg)) ↔
      (s.relative_path = none ∨
        ∃ p, s.relative_path = some p ∧ get_file_extension (get_filename p) = none) := by
  unfold snapshot_to_row
  cases hp : s.relative_path with
  | none => simp
  | some p =>
    dsimp only
    cases hext : get_file_extension (get_filename p) with
    | none => simp [hext]
    | some ft => simp [hext]

/-! ## Writing a row and reading it back: lemmas -/

theorem track_table.get_set_column (t : track_table) (id : Int) (r : track_row)
    (assign : track_row → track_row) (hget : t.get id = some r)
    (hid : ∀ x : track_row, x.id = id → (assign x).id = id) :
    ∃ t', t.set_column assign id = .ok t' ∧ t'.get id = some (assign r) := by
  have hex : t.exists id = true := (t.exists_iff_get id).mpr ⟨r, hget⟩
  refine ⟨{ rows := t.rows.map fun x => if x.id == id then assign x else x }, ?_, ?_⟩
  · unfold track_table.set_column
    rw [if_pos hex]
  · unfold track_table.get at hget ⊢
    rw [find?_map_replace _ _ assign hid, hget]
    rfl

theorem track_table.get_column_of_get {α : Type} (t : track_table) (id : Int) (r : track_row)
    (column : track_row → α) (hget : t.get id = some r) :
    t.get_column column id = .ok (column r) := by
  unfold track_table.get_column
  rw [hget]

/-- The columns that `snapshot_to_row` copies from the snapshot unchanged. -/
theorem snapshot_to_row_copied (cv : convert) (s : track_snapshot) (info : information_row)
    (row : track_row) (h : snapshot_to_row cv s info = .ok row) :
    row.id = s.id.getD TRACK_ROW_ID_NONE ∧
    row.play_order = s.track_number ∧ row.year = s.year ∧ row.bitrate = s.bitrate ∧
    row.file_bytes = s.file_bytes ∧ row.title = s.title ∧ row.artist = s.artist ∧
    row.album = s.album ∧ row.genre = s.genre ∧ row.comment = s.comment ∧
    row.label = s.publisher ∧ row.composer = s.composer ∧
    row.time_last_played = s.last_played_at ∧ some row.path = s.relative_path := by
  unfold snapshot_to_row at h
  split at h
  · cases h
  · rename_i p hp
    dsimp only at h
    split at h
    · cases h
    · cases h
      simp [hp]

/-- After a successful `create_track` or `update`, the table holds under the
track id the row that the mapping produced, with its `id` set to the track id. -/
theorem stored_row_of_write (cv : convert) (lib lib' : engine_library) (s : track_snapshot)
    (i : Int)
    (h : create_track cv lib s = .ok (lib', i) ∨ track_impl.update cv lib i s = .ok lib') :
    ∃ row, snapshot_to_row cv s lib.information = .ok row ∧
      lib'.track.get i = some { row with id := i } ∧ lib'.information = lib.information := by
  rcases h with h | h
  · obtain ⟨row, hrow, hlib, hi⟩ := create_track_ok cv lib lib' s i h
    refine ⟨row, hrow, ?_, by rw [hlib]⟩
    rw [hlib, hi]
    exact lib.track.get_add row
  · obtain ⟨row, track, hrow, hupd, hlib⟩ := update_ok cv lib lib' s i h
    refine ⟨row, hrow, ?_, by rw [hlib]⟩
    rw [hlib]
    exact lib.track.get_update track { row with id := i } hupd

theorem track_impl.snapshot_of_get (cr : convert_read) (lib : engine_library) (id : Int)
    (row : track_row) (hget : lib.track.get id = some row) :
    ∃ snap, track_impl.snapshot cr lib id = .ok snap ∧ snap.id = some id ∧
      snap.track_number = row.play_order ∧ snap.year = row.year ∧ snap.bitrate = row.bitrate ∧
      snap.file_bytes = row.file_bytes ∧ snap.title = row.title ∧ snap.artist = row.artist ∧
      snap.album = row.album ∧ snap.genre = row.genre ∧ snap.comment = row.comment ∧
      snap.publisher = row.label ∧ snap.composer = row.composer ∧
      snap.last_played_at = row.time_last_played ∧ snap.relative_path = some row.path ∧
      snap.last_accessed_at = none ∧ snap.last_modified_at = none ∧
      snap.rating = convert.read_rating row.rating := by
  unfold track_impl.snapshot
  rw [hget]
  exact ⟨_, rfl, rfl, rfl, rfl, rfl, rfl, rfl, rfl, rfl, rfl, rfl, rfl, rfl, rfl, rfl, rfl, rfl,
    rfl⟩

/-- The function `create_track` accepts every snapshot without an id whose
path has a file name with a `.`. -/
theorem create_track_succeeds (cv : convert) (lib : engine_library) (s : track_snapshot)
    (p : String) (hid : s.id = none) (hp : s.relative_path = some p)
    (hdot : '.' ∈ (get_filename p).data) :
    ∃ lib' i, create_track cv lib s = .ok (lib', i) := by
  have hrow : ∃ row, snapshot_to_row cv s lib.information = .ok row := by
    unfold snapshot_to_row
    rw [hp]
    dsimp only
    rw [get_file_extension_filename]
    simp [hdot]
  obtain ⟨row, hrow⟩ := hrow
  refine ⟨{ lib with track := (lib.track.add row).1 }, (lib.track.add row).2, ?_⟩
  unfold create_track
  simp only [hid, Option.isSome_none, Bool.false_eq_true, if_false, hrow, bind, Except.bind,
    pure, Except.pure]

/-! ## Update and read-back: claims -/

/-- C11: `update s` on the handle with id `i` throws `invalid_track_snapshot`
when `s.id` is present and differs from `i`, whatever the table holds (the
check comes first, and a throwing call leaves no new state); when `s.id` is
absent or equals `i` and the mapping yields `row`, the call is exactly the
table's `update` of `row` with its `id` replaced by `i`. -/
theorem update_checks_id (cv : convert) (lib : engine_library) (i : Int) (s : track_snapshot) :
    (∀ j, s.id = some j → j ≠ i →
      track_impl.update cv lib i s = .error (.invalid_track_snapshot
        "Snapshot pertains to a different track, and so it cannot be used to update this track")) ∧
    ((s.id = none ∨ s.id = some i) → ∀ row, snapshot_to_row cv s lib.information = .ok row →
      track_impl.update cv lib i s =
        (lib.track.update { row with id := i }).map (fun t => { lib with track := t }) ∧
      ({ row with id := i } : track_row).id = i ∧
      row.id = s.id.getD TRACK_ROW_ID_NONE) := by
  constructor
  · intro j hj hne
    unfold track_impl.update
    have : (s.id.isSome && s.id != some i) = true := by
      rw [hj]
      simp [hne]
    rw [if_pos this]
  · intro hid row hrow
    have : ¬ (s.id.isSome && s.id != some i) = true := by
      rcases hid with hid | hid <;> rw [hid] <;> simp
    refine ⟨?_, rfl, (snapshot_to_row_copied cv s lib.information row hrow).1⟩
    unfold track_impl.update
    rw [if_neg this]
    simp only [hrow, bind, Except.bind, pure, Except.pure]
    cases lib.track.update { row with id := i } <;> rfl

/-- Witness for C11: on the track 1 created from `"a.mp3"`, a snapshot bound
to id 2 is refused; the unbound snapshot is mapped to a row with id 0, and the
row given to the table has id 1. -/
theorem update_checks_id_witness :
    track_impl.update convert.plain example_created_library 1
        { example_snapshot with id := some 2 } =
      .error (.invalid_track_snapshot
        "Snapshot pertains to a different track, and so it cannot be used to update this track") ∧
    (∃ row, snapshot_to_row convert.plain example_snapshot
        example_created_library.information = .ok row ∧ row.id = 0 ∧
      track_impl.update convert.plain example_created_library 1 example_snapshot =
        (example_created_library.track.update { row with id := 1 }).map
          (fun t => { example_created_library with track := t })) :=
  ⟨(update_checks_id convert.plain example_created_library 1
      { example_snapshot with id := some 2 }).1 2 rfl (by decide),
   match hrow : snapshot_to_row convert.plain example_snapshot
      example_created_library.information with
   | .ok row =>
     ⟨row, rfl,
      ((update_checks_id convert.plain example_created_library 1 example_snapshot).2
        (Or.inl rfl) row hrow).2.2,
      ((update_checks_id convert.plain example_created_library 1 example_snapshot).2
        (Or.inl rfl) row hrow).1⟩
   | .error e => by
     have h2 : (snapshot_to_row convert.plain example_snapshot
         example_created_library.information).toOption.isSome = true := rfl
     rw [hrow] at h2
     cases h2⟩

/-- C12: for every snapshot `s` without an id whose `relative_path` is
present and has a file name with an extension, `create_track s` returns a
track `i`, and `snapshot()` on that track succeeds and returns the same
`track_number`, `year`, `bitrate`, `file_bytes`, `title`, `artist`, `album`,
`genre`, `comment`, `publisher` (kept in the `label` column), `composer`,
`last_played_at` and `relative_path` as `s`, with `id` bound to `i`. -/
theorem snapshot_after_create_track (cv : convert) (cr : convert_read)
    (lib : engine_library) (s : track_snapshot) (p : String)
    (hid : s.id = none) (hp : s.relative_path = some p)
    (hdot : '.' ∈ (get_filename p).data) :
    ∃ lib' i snap, create_track cv lib s = .ok (lib', i) ∧
      track_impl.snapshot cr lib' i = .ok snap ∧ snap.id = some i ∧
      snap.track_number = s.track_number ∧ snap.year = s.year ∧ snap.bitrate = s.bitrate ∧
      snap.file_bytes = s.file_bytes ∧ snap.title = s.title ∧ snap.artist = s.artist ∧
      snap.album = s.album ∧ snap.genre = s.genre ∧ snap.comment = s.comment ∧
      snap.publisher = s.publisher ∧ snap.composer = s.composer ∧
      snap.last_played_at = s.last_played_at ∧ snap.relative_path = s.relative_path ∧
      lib'.track.get_column (fun r => r.label) i = .ok s.publisher := by
  obtain ⟨lib', i, h⟩ := create_track_succeeds cv lib s p hid hp hdot
  obtain ⟨row, hrow, hget, _⟩ := stored_row_of_write cv lib lib' s i (Or.inl h)
  obtain ⟨_, c1, c2, c3, c4, c5, c6, c7, c8, c9, c10, c11, c12, c13⟩ :=
    snapshot_to_row_copied cv s lib.information row hrow
  obtain ⟨snap, hs, r0, r1, r2, r3, r4, r5, r6, r7, r8, r9, r10, r11, r12, r13, _⟩ :=
    track_impl.snapshot_of_get cr lib' i _ hget
  refine ⟨lib', i, snap, h, hs, r0, ?_, ?_, ?_, ?_, ?_, ?_, ?_, ?_, ?_, ?_, ?_, ?_, ?_, ?_⟩
  · rw [r1]; exact c1
  · rw [r2]; exact c2
  · rw [r3]; exact c3
  · rw [r4]; exact c4
  · rw [r5]; exact c5
  · rw [r6]; exact c6
  · rw [r7]; exact c7
  · rw [r8]; exact c8
  · rw [r9]; exact c9
  · rw [r10]; exact c10
  · rw [r11]; exact c11
  · rw [r12]; exact c12
  · rw [r13]; exact c13
  · rw [track_table.get_column_of_get _ _ _ _ hget]
    exact congrArg Except.ok c10

/-- Witness for C12: `example_snapshot_accessed` is accepted and the created
track reads back its title, track number and path. -/
theorem snapshot_after_create_track_witness :
    ∃ lib' i snap, create_track convert.plain example_library example_snapshot_accessed =
        .ok (lib', i) ∧
      track_impl.snapshot convert_read.plain lib' i = .ok snap ∧ snap.id = some i ∧
      snap.track_number = some 1 ∧ snap.year = none ∧ snap.bitrate = none ∧
      snap.file_bytes = none ∧ snap.title = some "Some Song" ∧ snap.artist = none ∧
      snap.album = none ∧ snap.genre = none ∧ snap.comment = none ∧
      snap.publisher = none ∧ snap.composer = none ∧
      snap.last_played_at = none ∧ snap.relative_path = some "a.mp3" ∧
      lib'.track.get_column (fun r => r.label) i = .ok none :=
  snapshot_after_create_track convert.plain convert_read.plain example_library
    example_snapshot_accessed "a.mp3" rfl rfl (by decide)

/-- Counterexample for C13: the snapshot `example_snapshot_accessed` has
`last_accessed_at` and `last_modified_at` present; `create_track` accepts it,
and the snapshot read back from the created track has both absent (its title
and track number are kept). -/
theorem snapshot_drops_access_times_counterexample :
    example_snapshot_accessed.last_accessed_at = some 1700000000 ∧
    example_snapshot_accessed.last_modified_at = some 1700000001 ∧
    (do
      let (lib, id) ← create_track convert.plain example_library example_snapshot_accessed
      let snap ← track_impl.snapshot convert_read.plain lib id
      pure (id, snap.title, snap.track_number, snap.last_accessed_at, snap.last_modified_at)) =
    (Except.ok (1, some "Some Song", some 1, none, none) :
      Except exn (Int × Option String × Option Int × Option Int × Option Int)) := by
  exact ⟨rfl, rfl, rfl⟩

/-- C13 (amended): for every snapshot `s` accepted by `create_track` or by
`update` on the track `i`, the snapshot read back from that track is `s` with
`id` bound to `i`, with `last_accessed_at` and `last_modified_at` absent (they
have no column in the track table), and with each converted field (`rating`,
`bpm`, `duration`, `key`, `average_loudness`, `sampling`, both beat grids,
both main cues, `hot_cues`, `loops`, `waveform`) equal to the reading
conversion of what the writing conversion made of the field of `s`; every
other field is that of `s`. Hence, when each reading conversion restores what
was written for `s`, the snapshot read back is `s` in every field but `id` and
the two time stamps. -/
theorem snapshot_after_write (cv : convert) (cr : convert_read)
    (lib lib' : engine_library) (s : track_snapshot) (i : Int)
    (h : create_track cv lib s = .ok (lib', i) ∨ track_impl.update cv lib i s = .ok lib') :
    track_impl.snapshot cr lib' i = .ok
      { s with
        id := some i
        last_accessed_at := none
        last_modified_at := none
        rating := convert.read_rating (convert.write_rating s.rating)
        bpm := cr.read_bpm (cv.write_bpm s.bpm).bpm_analyzed (cv.write_bpm s.bpm).bpm
        duration := cr.read_duration (cv.write_duration s.duration)
        key := cr.read_key (cv.write_key s.key).key
        average_loudness := cr.read_average_loudness
          { sample_rate := (convert.write_sampling s.sampling).track_data_sample_rate
            samples := (convert.write_sampling s.sampling).track_data_samples
            average_loudness := cv.write_average_loudness s.average_loudness
            key := (cv.write_key s.key).track_data_key }
        sampling := cr.read_sampling
          { sample_rate := (convert.write_sampling s.sampling).track_data_sample_rate
            samples := (convert.write_sampling s.sampling).track_data_samples
            average_loudness := cv.write_average_loudness s.average_loudness
            key := (cv.write_key s.key).track_data_key }
        default_beatgrid := cr.read_beatgrid_markers
          (cv.write_beatgrid s.default_beatgrid s.adjusted_beatgrid).default_beat_grid
        adjusted_beatgrid := cr.read_beatgrid_markers
          (cv.write_beatgrid s.default_beatgrid s.adjusted_beatgrid).adjusted_beat_grid
        default_main_cue := cr.read_main_cue (cv.write_main_cue s.default_main_cue)
        adjusted_main_cue := cr.read_main_cue (cv.write_main_cue s.adjusted_main_cue)
        hot_cues := cr.read_hot_cues
          { quick_cues := cv.write_hot_cues s.hot_cues
            default_main_cue := cv.write_main_cue s.default_main_cue
            is_main_cue_adjusted :=
              f64_ne (cv.write_main_cue s.default_main_cue) (cv.write_main_cue s.adjusted_main_cue)
            adjusted_main_cue := cv.write_main_cue s.adjusted_main_cue }
        loops := cr.read_loops (cv.write_loops s.loops)
        waveform := cr.read_waveform (cv.write_waveform s.waveform s.sampling) } ∧
    (convert.read_rating (convert.write_rating s.rating) = s.rating ∧
      cr.read_bpm (cv.write_bpm s.bpm).bpm_analyzed (cv.write_bpm s.bpm).bpm = s.bpm ∧
      cr.read_duration (cv.write_duration s.duration) = s.duration ∧
      cr.read_key (cv.write_key s.key).key = s.key ∧
      cr.read_average_loudness
          { sample_rate := (convert.write_sampling s.sampling).track_data_sample_rate
            samples := (convert.write_sampling s.sampling).track_data_samples
            average_loudness := cv.write_average_loudness s.average_loudness
            key := (cv.write_key s.key).track_data_key } = s.average_loudness ∧
      cr.read_sampling
          { sample_rate := (convert.write_sampling s.sampling).track_data_sample_rate
            samples := (convert.write_sampling s.sampling).track_data_samples
            average_loudness := cv.write_average_loudness s.average_loudness
            key := (cv.write_key s.key).track_data_key } = s.sampling ∧
      cr.read_beatgrid_markers
          (cv.write_beatgrid s.default_beatgrid s.adjusted_beatgrid).default_beat_grid =
        s.default_beatgrid ∧
      cr.read_beatgrid_markers
          (cv.write_beatgrid s.default_beatgrid s.adjusted_beatgrid).adjusted_beat_grid =
        s.adjusted_beatgrid ∧
      cr.read_main_cue (cv.write_main_cue s.default_main_cue) = s.default_main_cue ∧
      cr.read_main_cue (cv.write_main_cue s.adjusted_main_cue) = s.adjusted_main_cue ∧
      cr.read_hot_cues
          { quick_cues := cv.write_hot_cues s.hot_cues
            default_main_cue := cv.write_main_cue s.default_main_cue
            is_main_cue_adjusted :=
              f64_ne (cv.write_main_cue s.default_main_cue) (cv.write_main_cue s.adjusted_main_cue)
            adjusted_main_cue := cv.write_main_cue s.adjusted_main_cue } = s.hot_cues ∧
      cr.read_loops (cv.write_loops s.loops) = s.loops ∧
      cr.read_waveform (cv.write_waveform s.waveform s.sampling) = s.waveform →
    track_impl.snapshot cr lib' i = .ok
      { s with id := some i, last_accessed_at := none, last_modified_at := none }) := by
  obtain ⟨row, hrow, hget, _⟩ := stored_row_of_write cv lib lib' s i h
  have hsnap : track_impl.snapshot cr lib' i = .ok
      { s with
        id := some i
        last_accessed_at := none
        last_modified_at := none
        rating := convert.read_rating (convert.write_rating s.rating)
        bpm := cr.read_bpm (cv.write_bpm s.bpm).bpm_analyzed (cv.write_bpm s.bpm).bpm
        duration := cr.read_duration (cv.write_duration s.duration)
        key := cr.read_key (cv.write_key s.key).key
        average_loudness := cr.read_average_loudness
          { sample_rate := (convert.write_sampling s.sampling).track_data_sample_rate
            samples := (convert.write_sampling s.sampling).track_data_samples
            average_loudness := cv.write_average_loudness s.average_loudness
            key := (cv.write_key s.key).track_data_key }
        sampling := cr.read_sampling
          { sample_rate := (convert.write_sampling s.sampling).track_data_sample_rate
            samples := (convert.write_sampling s.sampling).track_data_samples
            average_loudness := cv.write_average_loudness s.average_loudness
            key := (cv.write_key s.key).track_data_key }
        default_beatgrid := cr.read_beatgrid_markers
          (cv.write_beatgrid s.default_beatgrid s.adjusted_beatgrid).default_beat_grid
        adjusted_beatgrid := cr.read_beatgrid_markers
          (cv.write_beatgrid s.default_beatgrid s.adjusted_beatgrid).adjusted_beat_grid
        default_main_cue := cr.read_main_cue (cv.write_main_cue s.default_main_cue)
        adjusted_main_cue := cr.read_main_cue (cv.write_main_cue s.adjusted_main_cue)
        hot_cues := cr.read_hot_cues
          { quick_cues := cv.write_hot_cues s.hot_cues
            default_main_cue := cv.write_main_cue s.default_main_cue
            is_main_cue_adjusted :=
              f64_ne (cv.write_main_cue s.default_main_cue) (cv.write_main_cue s.adjusted_main_cue)
            adjusted_main_cue := cv.write_main_cue s.adjusted_main_cue }
        loops := cr.read_loops (cv.write_loops s.loops)
        waveform := cr.read_waveform (cv.write_waveform s.waveform s.sampling) } := by
    unfold track_impl.snapshot
    rw [hget]
    unfold snapshot_to_row at hrow
    split at hrow
    · cases hrow
    · rename_i p hp
      dsimp only at hrow
      split at hrow
      · cases hrow
      · cases hrow
        simp only [hp]
  refine ⟨hsnap, ?_⟩
  rintro ⟨e1, e2, e3, e4, e5, e6, e7, e8, e9, e10, e11, e12, e13⟩
  rw [hsnap, e1, e2, e3, e4, e5, e6, e7, e8, e9, e10, e11, e12, e13]

/-- Witness for C13 (amended): `create_track` of `example_snapshot_full`, a
snapshot with every field populated, yields the track 1; with the stand-in
conversions every field is read back as written, except `id` (now 1) and the
two time stamps (now absent). -/
theorem snapshot_after_write_witness :
    create_track convert.plain example_library example_snapshot_full =
      .ok (example_full_library, 1) ∧
    track_impl.snapshot convert_read.plain example_full_library 1 = .ok
      { example_snapshot_full with
        id := some 1, last_accessed_at := none, last_modified_at := none } :=
  ⟨rfl, (snapshot_after_write convert.plain convert_read.plain example_library
    example_full_library example_snapshot_full 1 (Or.inl rfl)).2
    ⟨rfl, rfl, rfl, rfl, rfl, rfl, rfl, rfl, rfl, rfl, rfl, rfl, rfl⟩⟩

/-! ## File names and extensions: lemmas and claims -/

theorem reverse_takeWhile_after (c : Char) (before after : List Char) (h : c ∉ after) :
    ((before ++ c :: after).reverse.takeWhile fun x => x != c).reverse = after := by
  have hall : ∀ a ∈ after.reverse, (fun x => x != c) a = true := by
    intro a ha
    simp only [bne_iff_ne, ne_eq]
    intro hac
    exact h (hac ▸ List.mem_reverse.mp ha)
  have hrev : (before ++ c :: after).reverse = after.reverse ++ c :: before.reverse := by
    simp
  rw [hrev, List.takeWhile_append_of_pos hall, List.takeWhile_cons_of_neg (by simp)]
  simp

theorem reverse_takeWhile_all (c : Char) (l : List Char) (h : c ∉ l) :
    (l.reverse.takeWhile fun x => x != c).reverse = l := by
  have hall : ∀ a ∈ l.reverse, (fun x => x != c) a = true := by
    intro a ha
    simp only [bne_iff_ne, ne_eq]
    intro hac
    exact h (hac ▸ List.mem_reverse.mp ha)
  rw [List.takeWhile_eq_self_iff.mpr hall, List.reverse_reverse]

/-- The file name of `dir/name` is `name` when `name` has no `/`. -/
theorem get_filename_append (dir name : String) (h : '/' ∉ name.data) :
    get_filename (dir ++ "/" ++ name) = name := by
  unfold get_filename
  have : (dir ++ "/" ++ name).data = dir.data ++ '/' :: name.data := by
    simp [String.data_append]
  rw [this, reverse_takeWhile_after '/' dir.data name.data h]

/-- The file name of a path without `/` is the path. -/
theorem get_filename_of_no_slash (p : String) (h : '/' ∉ p.data) : get_filename p = p := by
  unfold get_filename
  rw [reverse_takeWhile_all '/' p.data h]

/-- The part of `base.ext` after its last `.` is `ext` when `ext` has no `.`. -/
theorem after_last_dot_append (base ext : String) (h : '.' ∉ ext.data) :
    after_last_dot (base ++ "." ++ ext) = ext := by
  unfold after_last_dot
  have : (base ++ "." ++ ext).data = base.data ++ '.' :: ext.data := by
    simp [String.data_append]
  rw [this, reverse_takeWhile_after '.' base.data ext.data h]

theorem get_file_extension_eq (p : String) :
    get_file_extension p =
      if (get_filename p).data.contains '.' then some (after_last_dot (get_filename p))
      else none := rfl

/-- C14: for every relative path `p` whose file name has an extension (a
`.`), creating a track from a snapshot without id and with `relative_path = p`
succeeds, and the track reports `relative_path() = p`, `filename()` = the
substring of `p` after its last `/` (all of `p` when it has none) and
`file_extension()` = the substring of that file name after its last `.`; and
on any track whose stored path has a file name without `.`,
`file_extension()` returns the empty string. -/
theorem created_track_paths (cv : convert) (lib : engine_library) (s : track_snapshot)
    (p : String) (hid : s.id = none) (hp : s.relative_path = some p)
    (hdot : '.' ∈ (get_filename p).data) :
    (∃ lib' i, create_track cv lib s = .ok (lib', i) ∧
      track_impl.relative_path lib' i = .ok p ∧
      track_impl.filename lib' i = .ok (get_filename p) ∧
      track_impl.file_extension lib' i = .ok (after_last_dot (get_filename p))) ∧
    (∀ dir name, p = dir ++ "/" ++ name → '/' ∉ name.data → get_filename p = name) ∧
    ('/' ∉ p.data → get_filename p = p) ∧
    (∀ base ext, get_filename p = base ++ "." ++ ext → '.' ∉ ext.data →
      after_last_dot (get_filename p) = ext) ∧
    (∀ (l : engine_library) (j : Int) (row : track_row), l.track.get j = some row →
      '.' ∉ (get_filename row.path).data → track_impl.file_extension l j = .ok "") := by
  obtain ⟨lib', i, h⟩ := create_track_succeeds cv lib s p hid hp hdot
  obtain ⟨row, hrow, hget, _⟩ := stored_row_of_write cv lib lib' s i (Or.inl h)
  have hpath : row.path = p := by
    have := (snapshot_to_row_copied cv s lib.information row hrow).2.2.2.2.2.2.2.2.2.2.2.2.2
    rw [hp] at this
    exact Option.some.inj this
  have hrel : track_impl.relative_path lib' i = .ok p := by
    unfold track_impl.relative_path track_table.get_path
    rw [track_table.get_column_of_get _ _ _ _ hget]
    exact congrArg Except.ok hpath
  refine ⟨⟨lib', i, h, hrel, ?_, ?_⟩, ?_, get_filename_of_no_slash p, ?_, ?_⟩
  · simp only [track_impl.filename, hrel, bind, Except.bind, pure, Except.pure]
  · simp only [track_impl.file_extension, hrel, bind, Except.bind, pure, Except.pure,
      get_file_extension_eq]
    simp [hdot]
  · intro dir name hdn hname
    rw [hdn]
    exact get_filename_append dir name hname
  · intro base ext hbe hext
    rw [hbe]
    exact after_last_dot_append base ext hext
  · intro l j r hr hnodot
    have hrel2 : track_impl.relative_path l j = .ok r.path := by
      unfold track_impl.relative_path track_table.get_path
      exact track_table.get_column_of_get _ _ _ _ hr
    simp only [track_impl.file_extension, hrel2, bind, Except.bind, pure, Except.pure,
      get_file_extension_eq]
    simp [hnodot]

/-- Witness for C14: the path `"../path/to/file_in_other_dir.mp3"` of the
repository's tests, with file name `"file_in_other_dir.mp3"` and extension
`"mp3"`. -/
theorem created_track_paths_witness :
    (∃ lib' i, create_track convert.plain example_library
        { relative_path := some "../path/to/file_in_other_dir.mp3" } = .ok (lib', i) ∧
      track_impl.relative_path lib' i = .ok "../path/to/file_in_other_dir.mp3" ∧
      track_impl.filename lib' i = .ok "file_in_other_dir.mp3" ∧
      track_impl.file_extension lib' i = .ok "mp3") :=
  (created_track_paths convert.plain example_library
    { relative_path := some "../path/to/file_in_other_dir.mp3" }
    "../path/to/file_in_other_dir.mp3" rfl rfl (by decide)).1

/-! ## Engine v2 database: claims -/

/-- C15: `database_impl::tracks_by_relative_path` of the Engine v2 database
throws `runtime_error` ("Not implemented yet") instead of returning tracks:
the library `example_created_library` holds the track 1 with the path
`"a.mp3"`, and both the lookup of that path and of a path that no track has
throw. -/
theorem tracks_by_relative_path_not_implemented :
    example_created_library.track.all_ids = [1] ∧
    example_created_library.track.get_path 1 = .ok "a.mp3" ∧
    database_impl.tracks_by_relative_path example_created_library "a.mp3" =
      .error (.runtime_error "database_impl::tracks_by_relative_path() - Not implemented yet") ∧
    database_impl.tracks_by_relative_path example_created_library "Does Not Exist.mp3" =
      .error (.runtime_error "database_impl::tracks_by_relative_path() - Not implemented yet") :=
  ⟨rfl, rfl, rfl, rfl⟩

/-! ## Crate ids: claims -/

/-- Counterexample for C16: in a database whose only crate has the id -1
(a consistent state), `create_root_crate "X"` returns the crate 0, on the
schema 1.9.1 path (`IFNULL(MAX(id), 0) + 1`) and on the older path (the row id
filled in by the SQL engine) alike. -/
theorem create_root_crate_id_zero_counterexample :
    example_storage_negative_id.consistent ∧
    ensure_valid_crate_name "X" = .ok () ∧
    example_storage_negative_id.version.ge version_1_9_1 = true ∧
    (el_database_impl.create_root_crate example_storage_negative_id "X").2 = .ok 0 ∧
    ({ example_storage_negative_id with version := ⟨1, 7, 1⟩ } : el_storage).version.ge
      version_1_9_1 = false ∧
    (el_database_impl.create_root_crate
      { example_storage_negative_id with version := ⟨1, 7, 1⟩ } "X").2 = .ok 0 := by
  refine ⟨?_, rfl, rfl, rfl, rfl, rfl⟩
  unfold el_storage.consistent
  decide

theorem auto_crate_id_pos (s : el_storage) (hs : s.crate_ids_non_negative) :
    1 ≤ auto_crate_id s := by
  unfold auto_crate_id
  split
  · exact le_refl 1
  · rename_i m hm
    have hmem : m ∈ s.crate.map fun r => r.id :=
      List.max?_mem (fun a b => by rcases max_choice a b with h | h <;> simp [h]) hm
    obtain ⟨r, hr, hid⟩ := List.mem_map.mp hmem
    have := (hs r hr).1
    omega

/-- C16 (amended): for every valid crate name and every database state whose
crate ids are not negative (and leave room for a successor), the crate that
`create_root_crate` returns has an id of at least 1, hence different from 0,
whatever the schema version is: at 1.9.1 and later the id is
`IFNULL(MAX(id), 0) + 1`, before it is the row id filled in on insertion, and
both are one more than the largest crate id. -/
theorem create_root_crate_id_nonzero (s : el_storage) (name : String)
    (h1 : name ≠ "") (h2 : ';' ∉ name.data) (hs : s.crate_ids_non_negative) :
    ∃ i, (el_database_impl.create_root_crate s name).2 = .ok i ∧ 1 ≤ i ∧ i ≠ 0 ∧
      (∀ r ∈ s.crate, r.id < i) ∧
      (s.version.ge version_1_9_1 = true → i = select_next_crate_id s) ∧
      (s.version.ge version_1_9_1 = false → i = auto_crate_id s) := by
  obtain ⟨journal, hc⟩ :=
    create_root_crate_valid s name ((ensure_valid_crate_name_ok name).mpr ⟨h1, h2⟩)
  have hpos := auto_crate_id_pos s hs
  rw [hc]
  refine ⟨auto_crate_id s, rfl, hpos, by omega, auto_crate_id_fresh s, ?_, ?_⟩
  · intro _
    exact (select_next_crate_id_eq s).symm
  · intro _
    rfl

/-- Witness for C16 (amended): `example_storage` (schema 1.9.1, crates 3 and
1) and the same tables at schema 1.7.1 both return the crate 4. -/
theorem create_root_crate_id_nonzero_witness :
    (∃ i, (el_database_impl.create_root_crate example_storage "Example Root Crate").2 = .ok i ∧
      1 ≤ i ∧ i ≠ 0 ∧ (∀ r ∈ example_storage.crate, r.id < i) ∧
      (example_storage.version.ge version_1_9_1 = true →
        i = select_next_crate_id example_storage) ∧
      (example_storage.version.ge version_1_9_1 = false → i = auto_crate_id example_storage)) ∧
    (el_database_impl.create_root_crate example_storage "Example Root Crate").2 = .ok 4 ∧
    (el_database_impl.create_root_crate { example_storage with version := ⟨1, 7, 1⟩ }
      "Example Root Crate").2 = .ok 4 :=
  ⟨create_root_crate_id_nonzero example_storage "Example Root Crate" (by decide) (by decide)
    (by unfold el_storage.crate_ids_non_negative; decide), rfl, rfl⟩

/-! ## Per-field setters: claims -/

/-- C17: on a track that is in the table, `set_rating v` succeeds for every
integer `v`; the stored rating lies in 0..100 and is the clamp of `v` (0 below
0, `v` within 0..100, 100 above 100); `rating()` afterwards returns `v` for
`v` in 1..100 and 100 for `v` above 100. -/
theorem set_rating_clamps (lib : engine_library) (id : Int) (row : track_row) (v : Int)
    (hget : lib.track.get id = some row) :
    ∃ lib' stored, track_impl.set_rating lib id (some v) = .ok lib' ∧
      lib'.track.get_rating id = .ok stored ∧
      (0 ≤ stored ∧ stored ≤ 100) ∧
      (v < 0 → stored = 0) ∧ (0 ≤ v → v ≤ 100 → stored = v) ∧ (100 < v → stored = 100) ∧
      (1 ≤ v → v ≤ 100 → track_impl.rating lib' id = .ok (some v)) ∧
      (100 < v → track_impl.rating lib' id = .ok (some 100)) := by
  obtain ⟨t', hset, hget'⟩ := lib.track.get_set_column id row
    (fun r => { r with rating := convert.write_rating (some v) }) hget (fun _ hx => hx)
  have hstored : ({ lib with track := t' } : engine_library).track.get_rating id =
      .ok (max 0 (min v 100)) := by
    unfold track_table.get_rating
    rw [track_table.get_column_of_get _ _ _ _ hget']
    rfl
  have hread : track_impl.rating { lib with track := t' } id =
      .ok (convert.read_rating (max 0 (min v 100))) := by
    simp only [track_impl.rating, hstored, bind, Except.bind, pure, Except.pure]
  refine ⟨{ lib with track := t' }, max 0 (min v 100), ?_, hstored, ?_, ?_, ?_, ?_, ?_, ?_⟩
  · simp only [track_impl.set_rating, track_table.set_rating, hset, bind, Except.bind, pure,
      Except.pure]
  · omega
  · intro h; omega
  · intro h1 h2; omega
  · intro h; omega
  · intro h1 h2
    rw [hread]
    have e : max 0 (min v 100) = v := by omega
    rw [e]
    unfold convert.read_rating
    rw [if_neg (by omega)]
  · intro h
    rw [hread]
    have e : max 0 (min v 100) = 100 := by omega
    rw [e]
    rfl

/-- Witness for C17: rating 150 on the track 1 created from `"a.mp3"` is
stored as 100 and read back as 100. -/
theorem set_rating_clamps_witness :
    ∃ lib' stored, track_impl.set_rating example_created_library 1 (some 150) = .ok lib' ∧
      lib'.track.get_rating 1 = .ok stored ∧ stored = 100 ∧
      track_impl.rating lib' 1 = .ok (some 100) :=
  match hget : example_created_library.track.get 1 with
  | some row =>
    let ⟨lib', stored, h1, h2, _, _, _, h6, _, h8⟩ :=
      set_rating_clamps example_created_library 1 row 150 hget
    ⟨lib', stored, h1, h2, h6 (by decide), h8 (by decide)⟩
  | none => by
    have h2 : (example_created_library.track.get 1).isSome = true := rfl
    rw [hget] at h2
    cases h2

/-- C18: on a track with id `i` that is in the table of the database with
uuid `u`: after `set_import_info info`, `import_info()` returns `info`, unless
`info` equals `{u, i}`, when it returns absent; after
`set_import_info absent`, `import_info()` returns absent. -/
theorem import_info_after_set (lib : engine_library) (i : Int) (row : track_row)
    (hget : lib.track.get i = some row) :
    (∀ info : track_import_info, ∃ lib', track_impl.set_import_info lib i (some info) = .ok lib' ∧
      track_impl.import_info lib' i =
        .ok (if info = { external_db_uuid := lib.information.uuid, external_track_id := i }
          then none else some info)) ∧
    (∃ lib', track_impl.set_import_info lib i none = .ok lib' ∧
      track_impl.import_info lib' i = .ok none) := by
  have key : ∀ (uuid : String) (origin : Int), ∃ t1 t2,
      lib.track.set_origin_database_uuid i uuid = .ok t1 ∧
      t1.set_origin_track_id i origin = .ok t2 ∧
      t2.get i = some { row with origin_database_uuid := uuid, origin_track_id := origin } := by
    intro uuid origin
    obtain ⟨t1, h1, g1⟩ := lib.track.get_set_column i row
      (fun r => { r with origin_database_uuid := uuid }) hget (fun _ hx => hx)
    obtain ⟨t2, h2, g2⟩ := t1.get_set_column i _
      (fun r => { r with origin_track_id := origin }) g1 (fun _ hx => hx)
    exact ⟨t1, t2, h1, h2, g2⟩
  constructor
  · intro info
    obtain ⟨t1, t2, h1, h2, g2⟩ := key info.external_db_uuid info.external_track_id
    refine ⟨{ lib with track := t2 }, ?_, ?_⟩
    · simp only [track_impl.set_import_info, h1, h2, bind, Except.bind, pure, Except.pure]
    · rw [track_impl.import_info_of_get { lib with track := t2 } i _ g2]
      obtain ⟨u, j⟩ := info
      by_cases hu : u = lib.information.uuid
      · by_cases hj : j = i
        · simp [hu, hj]
        · simp [hu, hj]
      · simp [hu]
  · obtain ⟨t1, t2, h1, h2, g2⟩ := key lib.information.uuid i
    refine ⟨{ lib with track := t2 }, ?_, ?_⟩
    · simp only [track_impl.set_import_info, h1, h2, bind, Except.bind, pure, Except.pure]
    · rw [track_impl.import_info_of_get { lib with track := t2 } i _ g2]
      simp

/-- Witness for C18: on the track 1 of the database `"uuid-1"`, the import
info `{"other", 7}` is read back, `{"uuid-1", 1}` reads back as absent. -/
theorem import_info_after_set_witness :
    (∃ lib', track_impl.set_import_info example_created_library 1
        (some { external_db_uuid := "other", external_track_id := 7 }) = .ok lib' ∧
      track_impl.import_info lib' 1 =
        .ok (some { external_db_uuid := "other", external_track_id := 7 })) ∧
    (∃ lib', track_impl.set_import_info example_created_library 1
        (some { external_db_uuid := "uuid-1", external_track_id := 1 }) = .ok lib' ∧
      track_impl.import_info lib' 1 = .ok none) ∧
    (∃ lib', track_impl.set_import_info example_created_library 1 none = .ok lib' ∧
      track_impl.import_info lib' 1 = .ok none) :=
  match hget : example_created_library.track.get 1 with
  | some row =>
    ⟨(import_info_after_set example_created_library 1 row hget).1
        { external_db_uuid := "other", external_track_id := 7 },
     (import_info_after_set example_created_library 1 row hget).1
        { external_db_uuid := "uuid-1", external_track_id := 1 },
     (import_info_after_set example_created_library 1 row hget).2⟩
  | none => by
    have h2 : (example_created_library.track.get 1).isSome = true := rfl
    rw [hget] at h2
    cases h2

/-- C19: on a track that is in the table, `set_sampling s` succeeds and
leaves under the track's id the old row with only four values replaced: the
sample rate and the sample count of the track-data blob and of the beat-data
blob, both set to the converted sampling; `average_loudness` and `key` of the
track data and `is_beatgrid_set` and the two grids of the beat data are as
before. -/
theorem set_sampling_frame (lib : engine_library) (id : Int) (row : track_row)
    (s : Option sampling_info) (hget : lib.track.get id = some row) :
    ∃ lib' row', track_impl.set_sampling lib id s = .ok lib' ∧
      lib'.track.get id = some row' ∧
      row' = { row with
        track_data := { row.track_data with
          sample_rate := (convert.write_sampling s).track_data_sample_rate
          samples := (convert.write_sampling s).track_data_samples }
        beat_data := { row.beat_data with
          sample_rate := (convert.write_sampling s).beat_data_sample_rate
          samples := (convert.write_sampling s).beat_data_samples } } ∧
      row'.track_data.sample_rate = (convert.write_sampling s).track_data_sample_rate ∧
      row'.track_data.samples = (convert.write_sampling s).track_data_samples ∧
      row'.beat_data.sample_rate = (convert.write_sampling s).beat_data_sample_rate ∧
      row'.beat_data.samples = (convert.write_sampling s).beat_data_samples ∧
      row'.track_data.average_loudness = row.track_data.average_loudness ∧
      row'.track_data.key = row.track_data.key ∧
      row'.beat_data.is_beatgrid_set = row.beat_data.is_beatgrid_set ∧
      row'.beat_data.default_beat_grid = row.beat_data.default_beat_grid ∧
      row'.beat_data.adjusted_beat_grid = row.beat_data.adjusted_beat_grid := by
  obtain ⟨t1, h1, g1⟩ := lib.track.get_set_column id row
    (fun r => { r with track_data := { row.track_data with
      sample_rate := (convert.write_sampling s).track_data_sample_rate
      samples := (convert.write_sampling s).track_data_samples } }) hget (fun _ hx => hx)
  obtain ⟨t2, h2, g2⟩ := t1.get_set_column id _
    (fun r => { r with beat_data := { row.beat_data with
      sample_rate := (convert.write_sampling s).beat_data_sample_rate
      samples := (convert.write_sampling s).beat_data_samples } }) g1 (fun _ hx => hx)
  refine ⟨{ lib with track := t2 }, _, ?_, g2, rfl, rfl, rfl, rfl, rfl, rfl, rfl, rfl, rfl, rfl⟩
  have hd : lib.track.get_track_data id = .ok row.track_data :=
    track_table.get_column_of_get _ _ _ _ hget
  have hb : lib.track.get_beat_data id = .ok row.beat_data :=
    track_table.get_column_of_get _ _ _ _ hget
  simp only [track_impl.set_sampling, hd, hb, bind, Except.bind, pure, Except.pure,
    track_table.set_track_data, track_table.set_beat_data]
  rw [h1]
  simp only [h2]

/-- Witness for C19: sampling 44.1 kHz with 16140600 samples on the track 1
created from `"a.mp3"`. -/
theorem set_sampling_frame_witness :
    ∃ lib' row', track_impl.set_sampling example_created_library 1
        (some { sample_rate := 0x40E5888000000000, sample_count := 16140600 }) = .ok lib' ∧
      lib'.track.get 1 = some row' ∧
      row'.track_data.sample_rate = 0x40E5888000000000 ∧
      row'.track_data.samples = 16140600 ∧
      row'.beat_data.sample_rate = 0x40E5888000000000 ∧
      row'.beat_data.samples = 16140600 ∧
      row'.beat_data.is_beatgrid_set = false :=
  match hget : example_created_library.track.get 1 with
  | some row =>
    let ⟨lib', row', h1, h2, _, h4, h5, h6, h7, _, _, h10, _, _⟩ :=
      set_sampling_frame example_created_library 1 row
        (some { sample_rate := 0x40E5888000000000, sample_count := 16140600 }) hget
    have hflag : row.beat_data.is_beatgrid_set = false := by
      have e : example_created_library.track.get 1 = some row := hget
      have e2 : (example_created_library.track.get 1).map
          (fun r => r.beat_data.is_beatgrid_set) = some false := rfl
      rw [e] at e2
      exact Option.some.inj e2
    ⟨lib', row', h1, h2, h4, h5, h6, h7, h10.trans hflag⟩
  | none => by
    have h2 : (example_created_library.track.get 1).isSome = true := rfl
    rw [hget] at h2
    cases h2

/-! ## Deleted tracks: claims -/

/-- C20: `snapshot()` on the handle with id `i` throws `track_deleted i` if and
only if the track table has no row with id `i`; these are exactly the states
in which `is_valid()` is false; in every other state `snapshot()` returns a
snapshot whose `id` is present and equal to `i`. -/
theorem snapshot_track_deleted_iff (cr : convert_read) (lib : engine_library) (i : Int) :
    (track_impl.snapshot cr lib i = .error (.track_deleted i) ↔ lib.track.get i = none) ∧
    (track_impl.is_valid lib i = false ↔ lib.track.get i = none) ∧
    (track_impl.is_valid lib i = false ↔
      track_impl.snapshot cr lib i = .error (.track_deleted i)) ∧
    (track_impl.is_valid lib i = true →
      ∃ snap, track_impl.snapshot cr lib i = .ok snap ∧ snap.id = some i) := by
  have hsnap : track_impl.snapshot cr lib i = .error (.track_deleted i) ↔
      lib.track.get i = none := by
    constructor
    · intro h
      cases hget : lib.track.get i with
      | none => rfl
      | some row =>
        obtain ⟨snap, hs, _⟩ := track_impl.snapshot_of_get cr lib i row hget
        rw [hs] at h
        cases h
    · intro h
      unfold track_impl.snapshot
      rw [h]
  have hvalid : track_impl.is_valid lib i = false ↔ lib.track.get i = none := by
    unfold track_impl.is_valid
    rw [← Bool.not_eq_true, track_table.exists_iff_get]
    constructor
    · intro h
      cases hget : lib.track.get i with
      | none => rfl
      | some row => exact absurd ⟨row, hget⟩ h
    · rintro h ⟨row, hrow⟩
      rw [h] at hrow
      cases hrow
  refine ⟨hsnap, hvalid, hvalid.trans hsnap.symm, ?_⟩
  intro h
  obtain ⟨row, hrow⟩ := (track_table.exists_iff_get lib.track i).mp h
  obtain ⟨snap, hs, hid, _⟩ := track_impl.snapshot_of_get cr lib i row hrow
  exact ⟨snap, hs, hid⟩

/-- Witness for C20: in `example_created_library` the handle 1 is valid and
its snapshot has id 1; the handle 2 is not valid and its snapshot throws
`track_deleted 2`. -/
theorem snapshot_track_deleted_iff_witness :
    (∃ snap, track_impl.snapshot convert_read.plain example_created_library 1 = .ok snap ∧
      snap.id = some 1) ∧
    track_impl.is_valid example_created_library 2 = false ∧
    track_impl.snapshot convert_read.plain example_created_library 2 =
      .error (.track_deleted 2) :=
  ⟨(snapshot_track_deleted_iff convert_read.plain example_created_library 1).2.2.2 rfl,
   rfl,
   (snapshot_track_deleted_iff convert_read.plain example_created_library 2).2.2.1.mp rfl⟩

/-! ## Lookup by id: claims -/

/-- C21: `el_database_impl::crate_by_id id` returns absent when `Crate` has no
row with that id, the handle with that id when it has exactly one, and throws
`crate_database_inconsistency` carrying `id` when it has more than one;
`track_by_id` does the same over `Track` with
`track_database_inconsistency`. -/
theorem by_id_count_cases (s : el_storage) (id : Int) :
    (((s.crate.filter fun r => r.id == id).length = 0 →
        el_database_impl.crate_by_id s id = .ok none) ∧
      ((s.crate.filter fun r => r.id == id).length = 1 →
        el_database_impl.crate_by_id s id = .ok (some id)) ∧
      (1 < (s.crate.filter fun r => r.id == id).length →
        el_database_impl.crate_by_id s id =
          .error (.crate_database_inconsistency "More than one crate with the same ID" id))) ∧
    (((s.track.filter fun r => r.id == id).length = 0 →
        el_database_impl.track_by_id s id = .ok none) ∧
      ((s.track.filter fun r => r.id == id).length = 1 →
        el_database_impl.track_by_id s id = .ok (some id)) ∧
      (1 < (s.track.filter fun r => r.id == id).length →
        el_database_impl.track_by_id s id =
          .error (.track_database_inconsistency "More than one track with the same ID" id))) := by
  refine ⟨⟨?_, ?_, ?_⟩, ?_, ?_, ?_⟩
  · intro h
    simp [el_database_impl.crate_by_id, h]
  · intro h
    simp [el_database_impl.crate_by_id, h]
  · intro h
    have h1 : ¬ (s.crate.filter fun r => r.id == id).length = 1 := by omega
    simp [el_database_impl.crate_by_id, h1, h]
  · intro h
    simp [el_database_impl.track_by_id, h]
  · intro h
    simp [el_database_impl.track_by_id, h]
  · intro h
    have h1 : ¬ (s.track.filter fun r => r.id == id).length = 1 := by omega
    simp [el_database_impl.track_by_id, h1, h]

/-- Witness for C21: in `example_storage` the crate 3 and the track 2 are
found and the ids 8 are absent; with a second `Crate` row and a second `Track`
row of id 3 both lookups of 3 throw. -/
theorem by_id_count_cases_witness :
    el_database_impl.crate_by_id example_storage 3 = .ok (some 3) ∧
    el_database_impl.crate_by_id example_storage 8 = .ok none ∧
    el_database_impl.track_by_id example_storage 2 = .ok (some 2) ∧
    el_database_impl.track_by_id example_storage 8 = .ok none ∧
    el_database_impl.crate_by_id example_storage_duplicates 3 =
      .error (.crate_database_inconsistency "More than one crate with the same ID" 3) ∧
    el_database_impl.track_by_id example_storage_duplicates 3 =
      .error (.track_database_inconsistency "More than one track with the same ID" 3) :=
  ⟨(by_id_count_cases example_storage 3).1.2.1 (by decide),
   (by_id_count_cases example_storage 8).1.1 (by decide),
   (by_id_count_cases example_storage 2).2.2.1 (by decide),
   (by_id_count_cases example_storage 8).2.1 (by decide),
   (by_id_count_cases example_storage_duplicates 3).1.2.2 (by decide),
   (by_id_count_cases example_storage_duplicates 3).2.2.2 (by decide)⟩

theorem foldl_snoc_eq (l acc : List Int) :
    l.foldl (fun results id => results ++ [id]) acc = acc ++ l := by
  induction l generalizing acc with
  | nil => simp
  | cons x xs ih => simp [List.foldl_cons, ih]

/-- C22: the Engine v2 `database_impl::track_by_id id` returns the handle with
that id when the track table has a row with that id and absent otherwise,
never throwing; `tracks()` returns the ids reported by the track table, one
handle per id in the same order, and `track_by_id` finds each of them. -/
theorem v2_track_by_id_and_tracks (lib : engine_library) (id : Int) :
    (lib.track.exists id = true → database_impl.track_by_id lib id = .ok (some id)) ∧
    (lib.track.exists id = false → database_impl.track_by_id lib id = .ok none) ∧
    (lib.track.exists id = true ↔ ∃ row, lib.track.get id = some row) ∧
    database_impl.tracks lib = .ok lib.track.all_ids ∧
    (∀ j ∈ lib.track.all_ids, database_impl.track_by_id lib j = .ok (some j)) := by
  refine ⟨?_, ?_, lib.track.exists_iff_get id, ?_, ?_⟩
  · intro h
    simp [database_impl.track_by_id, h]
  · intro h
    simp [database_impl.track_by_id, h]
  · simp [database_impl.tracks, foldl_snoc_eq]
  · intro j hj
    have hex : lib.track.exists j = true := by
      unfold track_table.all_ids at hj
      obtain ⟨r, hr, hid⟩ := List.mem_map.mp hj
      unfold track_table.exists
      rw [List.any_eq_true]
      exact ⟨r, hr, by simp [hid]⟩
    simp [database_impl.track_by_id, hex]

/-- Witness for C22: `example_created_library` holds the track 1 only; the id
123 is absent. -/
theorem v2_track_by_id_and_tracks_witness :
    database_impl.tracks example_created_library = .ok [1] ∧
    database_impl.track_by_id example_created_library 1 = .ok (some 1) ∧
    database_impl.track_by_id example_created_library 123 = .ok none :=
  ⟨(v2_track_by_id_and_tracks example_created_library 1).2.2.2.1,
   (v2_track_by_id_and_tracks example_created_library 1).1 rfl,
   (v2_track_by_id_and_tracks example_created_library 123).2.1 rfl⟩

/-! ## Track-data blob: the kind of the length error -/

/-- Counterexample for C23: a stored payload of three bytes makes `from_blob`
throw `invalid_argument`, which is not `malformed_blob`. -/
theorem from_blob_error_kind_counterexample :
    zlib.stored.zlib_uncompress [1, 2, 3] = .ok [1, 2, 3] ∧
    track_data_blob.from_blob zlib.stored [1, 2, 3] = .error (.invalid_argument
      "Track data blob doesn't have expected decompressed length of 28 bytes") ∧
    ∀ msg, track_data_blob.from_blob zlib.stored [1, 2, 3] ≠ .error (.malformed_blob msg) := by
  refine ⟨rfl, rfl, ?_⟩
  intro msg h
  have h2 : track_data_blob.from_blob zlib.stored [1, 2, 3] = .error (.invalid_argument
      "Track data blob doesn't have expected decompressed length of 28 bytes") := rfl
  rw [h2] at h
  cases h

/-- C23 (amended): when the uncompressed payload of a track-data blob does not
have length 28, `from_blob` throws `invalid_argument` (the C++
`std::invalid_argument`) with the message about the expected length; it never
throws `malformed_blob`. -/
theorem from_blob_error_kind (z : zlib) (b p : List Nat) (h : z.zlib_uncompress b = .ok p)
    (hp : p.length ≠ 28) :
    track_data_blob.from_blob z b = .error (.invalid_argument
      "Track data blob doesn't have expected decompressed length of 28 bytes") ∧
    ∀ msg, track_data_blob.from_blob z b ≠ .error (.malformed_blob msg) := by
  have hb : track_data_blob.from_blob z b = .error (.invalid_argument
      "Track data blob doesn't have expected decompressed length of 28 bytes") := by
    unfold track_data_blob.from_blob
    rw [h]
    simp [track_data_blob.from_uncompressed, hp]
  refine ⟨hb, ?_⟩
  intro msg hm
  rw [hb] at hm
  cases hm

/-- Witness for C23 (amended): a stored payload of 29 bytes. -/
theorem from_blob_error_kind_witness :
    track_data_blob.from_blob zlib.stored (List.replicate 29 0) = .error (.invalid_argument
      "Track data blob doesn't have expected decompressed length of 28 bytes") ∧
    ∀ msg, track_data_blob.from_blob zlib.stored (List.replicate 29 0) ≠
      .error (.malformed_blob msg) :=
  from_blob_error_kind zlib.stored (List.replicate 29 0) (List.replicate 29 0) rfl (by decide)

/-! ## Hot cue and loop slots: claims -/

/-- The bounds test of the four slot accessors lets `index = size` through:
with `n` stored entries, every index in `0..n` passes, and the index `n` is
outside the vector. -/
theorem hot_cue_at_index_size (cs : convert_slot) (lib : engine_library) (id : Int)
    (q : quick_cues_blob) (h : lib.track.get_quick_cues id = .ok q) :
    track_impl.hot_cue_at cs lib id q.quick_cues.length =
      .out_of_bounds q.quick_cues.length q.quick_cues.length := by
  unfold track_impl.hot_cue_at
  rw [h]
  have h1 : ¬ ((q.quick_cues.length : Int) < 0 ∨
      (q.quick_cues.length : Int) > q.quick_cues.length) := by omega
  simp only [h1, if_false, Int.toNat_ofNat]
  rw [List.getElem?_eq_none (le_refl _)]

/-- C24: the accessors test `index > size()` instead of `index >= size()`: on
the track 1 of `example_created_library`, whose quick-cues and loops lists
have 8 entries each, `hot_cue_at`, `set_hot_cue_at`, `loop_at` and
`set_loop_at` with index 8 do not throw `out_of_range` and touch the element 8
of an 8-element vector; the indices -1 and 9 do throw, the index 7 is
served. -/
theorem slot_accessors_index_eight :
    (example_created_library.track.get_quick_cues 1).toOption.map
      (fun q => q.quick_cues.length) = some 8 ∧
    (example_created_library.track.get_loops 1).toOption.map
      (fun l => l.loops.length) = some 8 ∧
    track_impl.hot_cue_at convert_slot.plain example_created_library 1 8 =
      .out_of_bounds 8 8 ∧
    track_impl.set_hot_cue_at convert_slot.plain example_created_library 1 8 none =
      .out_of_bounds 8 8 ∧
    track_impl.loop_at convert_slot.plain example_created_library 1 8 =
      .out_of_bounds 8 8 ∧
    track_impl.set_loop_at convert_slot.plain example_created_library 1 8 none =
      .out_of_bounds 8 8 ∧
    track_impl.hot_cue_at convert_slot.plain example_created_library 1 9 =
      .throws (.out_of_range
        "Request for hot cue at given index exceeds maximum number of cues on track") ∧
    track_impl.hot_cue_at convert_slot.plain example_created_library 1 (-1) =
      .throws (.out_of_range
        "Request for hot cue at given index exceeds maximum number of cues on track") ∧
    track_impl.hot_cue_at convert_slot.plain example_created_library 1 7 = .value none := by
  refine ⟨rfl, rfl, rfl, rfl, rfl, rfl, rfl, rfl, rfl⟩

/-! ## Creating a track from a bound snapshot: claims -/

/-- C25: `create_track` throws `invalid_track_snapshot` for every snapshot
whose `id` is present, whatever the table holds (the test comes before the
table is used, so no row is added); hence it refuses the snapshot that
`snapshot()` returns for any live track; and whenever it succeeds, the row it
passed to the table's `add` has the id `TRACK_ROW_ID_NONE`. -/
theorem create_track_refuses_bound_snapshot (cv : convert) (cr : convert_read)
    (lib : engine_library) (s : track_snapshot) :
    (s.id.isSome = true →
      create_track cv lib s = .error (.invalid_track_snapshot
        "Snapshot already pertains to a persisted track, and so it cannot be created again")) ∧
    (∀ (l : engine_library) (i : Int), track_impl.snapshot cr l i = .ok s →
      create_track cv lib s = .error (.invalid_track_snapshot
        "Snapshot already pertains to a persisted track, and so it cannot be created again")) ∧
    (∀ lib' i, create_track cv lib s = .ok (lib', i) →
      ∃ row, snapshot_to_row cv s lib.information = .ok row ∧ row.id = TRACK_ROW_ID_NONE ∧
        lib' = { lib with track := (lib.track.add row).1 } ∧ i = (lib.track.add row).2) := by
  have h1 : s.id.isSome = true →
      create_track cv lib s = .error (.invalid_track_snapshot
        "Snapshot already pertains to a persisted track, and so it cannot be created again") := by
    intro h
    unfold create_track
    rw [if_pos h]
  refine ⟨h1, ?_, ?_⟩
  · intro l i hs
    apply h1
    cases hget : l.track.get i with
    | none =>
      unfold track_impl.snapshot at hs
      rw [hget] at hs
      cases hs
    | some row =>
      obtain ⟨snap, hsnap, hid, _⟩ := track_impl.snapshot_of_get cr l i row hget
      rw [hs] at hsnap
      cases hsnap
      rw [hid]
      rfl
  · intro lib' i h
    obtain ⟨row, hrow, hlib, hi⟩ := create_track_ok cv lib lib' s i h
    have hnone : s.id = none := by
      cases hid : s.id with
      | none => rfl
      | some j =>
        have := h1 (by rw [hid]; rfl)
        rw [this] at h
        cases h
    refine ⟨row, hrow, ?_, hlib, hi⟩
    rw [(snapshot_to_row_copied cv s lib.information row hrow).1, hnone]
    rfl

/-- Witness for C25: the snapshot of the track 1 of `example_created_library`
is refused by `create_track`, and the table still holds the track 1 only. -/
theorem create_track_refuses_bound_snapshot_witness :
    (∃ snap, track_impl.snapshot convert_read.plain example_created_library 1 = .ok snap ∧
      create_track convert.plain example_created_library snap =
        .error (.invalid_track_snapshot
          "Snapshot already pertains to a persisted track, and so it cannot be created again")) ∧
    example_created_library.track.all_ids = [1] :=
  have hfirst : ∃ snap,
      track_impl.snapshot convert_read.plain example_created_library 1 = .ok snap ∧
      create_track convert.plain example_created_library snap =
        .error (.invalid_track_snapshot
          "Snapshot already pertains to a persisted track, and so it cannot be created again") :=
    match hs : track_impl.snapshot convert_read.plain example_created_library 1 with
    | .ok snap =>
      ⟨snap, rfl, (create_track_refuses_bound_snapshot convert.plain convert_read.plain
        example_created_library snap).2.1 example_created_library 1 hs⟩
    | .error e => by
      have h2 : (track_impl.snapshot convert_read.plain
          example_created_library 1).toOption.isSome = true := rfl
      rw [hs] at h2
      cases h2
  ⟨hfirst, rfl⟩

/-! ## Waveform sizing: claims -/

theorem int64_wrap_sum_pred (sc spe : Int) (h0 : 0 ≤ sc) (h1 : 1 ≤ spe)
    (h2 : sc + spe - 1 < 2 ^ 63) :
    int64_wrap (int64_wrap (sc + spe) - 1) = sc + spe - 1 := by
  unfold int64_wrap
  omega

/-- C26: for `int64_t` operands with `sample_count >= 0`, `spe >= 1` and
`sample_count + spe - 1` below `2^63`, the expression
`(sample_count + spe - 1) / spe` of the example, with truncating division, is
the ceiling of `sample_count / spe`: it is the least `n` with
`n * spe >= sample_count`; for 16140600 samples and 105 samples per entry it
is 153720. -/
theorem waveform_size_is_ceiling (sample_count spe : Int) (h0 : 0 ≤ sample_count)
    (h1 : 1 ≤ spe) (h2 : sample_count + spe - 1 < 2 ^ 63) :
    sample_count ≤ waveform_size sample_count spe * spe ∧
    (∀ m : Int, sample_count ≤ m * spe → waveform_size sample_count spe ≤ m) ∧
    0 ≤ waveform_size sample_count spe ∧
    waveform_size 16140600 105 = 153720 := by
  have hw : waveform_size sample_count spe = (sample_count + spe - 1) / spe := by
    unfold waveform_size
    rw [int64_wrap_sum_pred sample_count spe h0 h1 h2]
    exact Int.tdiv_eq_ediv (by omega) (by omega)
  have hpos : (0 : Int) < spe := by omega
  have hle : (sample_count + spe - 1) / spe * spe ≤ sample_count + spe - 1 :=
    Int.ediv_mul_le _ (by omega)
  have hlt : sample_count + spe - 1 < ((sample_count + spe - 1) / spe + 1) * spe :=
    Int.lt_ediv_add_one_mul_self _ hpos
  rw [hw]
  refine ⟨?_, ?_, ?_, rfl⟩
  · have : ((sample_count + spe - 1) / spe + 1) * spe =
        (sample_count + spe - 1) / spe * spe + spe := by ring
    omega
  · intro m hm
    by_contra hn
    have hm1 : m + 1 ≤ (sample_count + spe - 1) / spe := by omega
    have hmul : (m + 1) * spe ≤ (sample_count + spe - 1) / spe * spe :=
      Int.mul_le_mul_of_nonneg_right hm1 (by omega)
    have : (m + 1) * spe = m * spe + spe := by ring
    omega
  · exact Int.ediv_nonneg (by omega) (by omega)

/-- Witness for C26: 1000 samples at 105 samples per entry need 10 entries. -/
theorem waveform_size_is_ceiling_witness :
    (1000 : Int) ≤ waveform_size 1000 105 * 105 ∧ waveform_size 1000 105 = 10 ∧
    (∀ m : Int, 1000 ≤ m * 105 → waveform_size 1000 105 ≤ m) :=
  ⟨(waveform_size_is_ceiling 1000 105 (by decide) (by decide) (by decide)).1, rfl,
   (waveform_size_is_ceiling 1000 105 (by decide) (by decide) (by decide)).2.1⟩

/-! ## Update as a full-record replacement: claims -/

/-- The columns that `snapshot_to_row` fills with fixed values. -/
theorem snapshot_to_row_defaults (cv : convert) (s : track_snapshot) (info : information_row)
    (row : track_row) (h : snapshot_to_row cv s info = .ok row) :
    row.album_art_id = ALBUM_ART_ID_NONE ∧ row.is_played = false ∧ row.is_analyzed = true ∧
    row.is_available = true ∧ row.remixer = none ∧ row.uri = none ∧
    row.date_created = none ∧ row.date_added = none := by
  unfold snapshot_to_row at h
  split at h
  · cases h
  · dsimp only at h
    split at h
    · cases h
    · cases h
      exact ⟨rfl, rfl, rfl, rfl, rfl, rfl, rfl, rfl⟩

/-- C27: after a successful `update s` on the track `i`, whatever row was
stored before, the row under `i` has `album_art_id = ALBUM_ART_ID_NONE`,
`is_played = false`, `is_analyzed = true`, `is_available = true` and `remixer`,
`uri`, `date_created`, `date_added` absent; and updating a track with its own
snapshot can change the row: on `example_played_library`, whose track 1 is
marked as played, `update (snapshot ())` succeeds and leaves it not played. -/
theorem update_resets_defaults (cv : convert) (lib lib' : engine_library) (i : Int)
    (s : track_snapshot) (h : track_impl.update cv lib i s = .ok lib') :
    (∃ row, lib'.track.get i = some row ∧
      row.album_art_id = ALBUM_ART_ID_NONE ∧ row.is_played = false ∧ row.is_analyzed = true ∧
      row.is_available = true ∧ row.remixer = none ∧ row.uri = none ∧
      row.date_created = none ∧ row.date_added = none) ∧
    (track_impl.snapshot convert_read.plain example_played_library 1 =
        .ok example_played_snapshot ∧
      track_impl.update convert.plain example_played_library 1 example_played_snapshot =
        .ok example_reupdated_library ∧
      (example_played_library.track.get 1).map (fun r => r.is_played) = some true ∧
      (example_reupdated_library.track.get 1).map (fun r => r.is_played) = some false ∧
      example_reupdated_library.track.get 1 ≠ example_played_library.track.get 1) := by
  constructor
  · obtain ⟨row, hrow, hget, _⟩ := stored_row_of_write cv lib lib' s i (Or.inr h)
    obtain ⟨d1, d2, d3, d4, d5, d6, d7, d8⟩ :=
      snapshot_to_row_defaults cv s lib.information row hrow
    exact ⟨_, hget, d1, d2, d3, d4, d5, d6, d7, d8⟩
  · refine ⟨rfl, rfl, rfl, rfl, ?_⟩
    intro heq
    have h1 : (example_played_library.track.get 1).map (fun r => r.is_played) = some true := rfl
    have h2 : (example_reupdated_library.track.get 1).map (fun r => r.is_played) = some false :=
      rfl
    rw [heq, h1] at h2
    cases h2

/-- Witness for C27: the update of the played track 1 with its own snapshot. -/
theorem update_resets_defaults_witness :
    ∃ row, example_reupdated_library.track.get 1 = some row ∧
      row.album_art_id = ALBUM_ART_ID_NONE ∧ row.is_played = false ∧ row.is_analyzed = true ∧
      row.is_available = true ∧ row.remixer = none ∧ row.uri = none ∧
      row.date_created = none ∧ row.date_added = none :=
  (update_resets_defaults convert.plain example_played_library example_reupdated_library 1
    example_played_snapshot rfl).1

/-! ## Root crates by name: lemmas and claims -/

theorem foldl_overwrite_eq_getLast? (l : List Int) (init : Option Int) :
    l.foldl (fun _ id => some id) init = (l.getLast?).or init := by
  induction l generalizing init with
  | nil => simp
  | cons x xs ih =>
    rw [List.foldl_cons, ih]
    cases xs with
    | nil => simp
    | cons y ys =>
      rw [List.getLast?_cons_cons, List.getLast?_eq_getLast (y :: ys) (by simp)]
      rfl

theorem sorted_le_getLast (l : List Int) (hl : l.Sorted (fun a b => a ≤ b)) (m : Int)
    (hm : l.getLast? = some m) : ∀ x ∈ l, x ≤ m := by
  induction l with
  | nil => intro x hx; cases hx
  | cons a t ih =>
    intro x hx
    cases t with
    | nil =>
      simp only [List.getLast?_singleton, Option.some.injEq] at hm
      simp only [List.mem_singleton] at hx
      omega
    | cons b t' =>
      rw [List.getLast?_cons_cons] at hm
      have hsorted := List.Sorted.of_cons hl
      have hlast : m ∈ b :: t' := List.mem_of_getLast?_eq_some hm
      rcases List.mem_cons.mp hx with hx | hx
      · rw [hx]
        exact List.rel_of_sorted_cons hl m hlast
      · exact ih hsorted hm x hx

theorem mem_root_rows (s : el_storage) (title : String) (i : Int) :
    i ∈ ((s.crate.filter fun cr => cr.title == title).flatMap fun cr =>
      (s.crate_parent_list.filter fun cpl =>
        cpl.crateOriginId == cr.id && cpl.crateOriginId == cpl.crateParentId).map
        fun _ => cr.id) ↔ s.is_root_crate_titled title i := by
  unfold el_storage.is_root_crate_titled
  simp only [List.mem_flatMap, List.mem_filter, List.mem_map, beq_iff_eq, Bool.and_eq_true]
  constructor
  · rintro ⟨cr, ⟨hcr, htitle⟩, cpl, ⟨hcpl, ho, hp⟩, hid⟩
    exact ⟨⟨cr, hcr, hid, htitle⟩, cpl, hcpl, by omega, by omega⟩
  · rintro ⟨⟨cr, hcr, hid, htitle⟩, cpl, hcpl, ho, hp⟩
    exact ⟨cr, ⟨hcr, htitle⟩, cpl, ⟨hcpl, by omega, by omega⟩, hid⟩

/-- Counterexample for C28: in `example_storage_named` no crate has the title
`"A\x00B"`, yet `root_crate_by_name "A\x00B"` returns the root crate 5, whose
title is `"A"`. -/
theorem root_crate_by_name_counterexample :
    (∀ cr ∈ example_storage_named.crate, cr.title ≠ "A\x00B") ∧
    el_database_impl.root_crate_by_name example_storage_named "A\x00B" = some 5 ∧
    (example_storage_named.crate.filter fun cr => cr.id == 5).map (fun cr => cr.title) =
      ["A"] := by
  refine ⟨by decide, rfl, rfl⟩

/-- C28 (amended): with `t` the name cut before its first NUL character (the
name itself when it has none), `root_crate_by_name name` returns absent
exactly when no crate titled `t` has a `CrateParentList` row whose parent is
the crate itself; otherwise it returns such a crate, the one with the greatest
id; a crate titled `t` without such a row is never returned. -/
theorem root_crate_by_name_greatest (s : el_storage) (name : String) :
    (el_database_impl.root_crate_by_name s name = none ↔
      ∀ i, ¬ s.is_root_crate_titled (c_str name) i) ∧
    (∀ i, el_database_impl.root_crate_by_name s name = some i →
      s.is_root_crate_titled (c_str name) i ∧
      ∀ j, s.is_root_crate_titled (c_str name) j → j ≤ i) ∧
    (Char.ofNat 0 ∉ name.data → c_str name = name) := by
  have hres : el_database_impl.root_crate_by_name s name =
      (order_by ((s.crate.filter fun cr => cr.title == c_str name).flatMap fun cr =>
        (s.crate_parent_list.filter fun cpl =>
          cpl.crateOriginId == cr.id && cpl.crateOriginId == cpl.crateParentId).map
          fun _ => cr.id)).getLast? := by
    unfold el_database_impl.root_crate_by_name
    simp only [foldl_overwrite_eq_getLast?, Option.or_none]
  have hmem : ∀ i, i ∈ order_by ((s.crate.filter fun cr => cr.title == c_str name).flatMap
      fun cr => (s.crate_parent_list.filter fun cpl =>
          cpl.crateOriginId == cr.id && cpl.crateOriginId == cpl.crateParentId).map
          fun _ => cr.id) ↔ s.is_root_crate_titled (c_str name) i := by
    intro i
    rw [mem_order_by, mem_root_rows]
  refine ⟨?_, ?_, c_str_of_no_nul name⟩
  · rw [hres, List.getLast?_eq_none_iff]
    constructor
    · intro h i hi
      have := (hmem i).mpr hi
      rw [h] at this
      cases this
    · intro h
      apply List.eq_nil_iff_forall_not_mem.mpr
      intro i hi
      exact h i ((hmem i).mp hi)
  · intro i hi
    rw [hres] at hi
    refine ⟨(hmem i).mp (List.mem_of_getLast?_eq_some hi), ?_⟩
    intro j hj
    exact sorted_le_getLast _ (List.sorted_insertionSort _ _) i hi j ((hmem j).mpr hj)

/-- Witness for C28 (amended): in `example_storage_named` the name `"A"`
yields the root crate 5 (not the root crate 2, not the child crate 7), and the
name `"C"` yields absent. -/
theorem root_crate_by_name_greatest_witness :
    el_database_impl.root_crate_by_name example_storage_named "A" = some 5 ∧
    (example_storage_named.is_root_crate_titled (c_str "A") 5 ∧
      ∀ j, example_storage_named.is_root_crate_titled (c_str "A") j → j ≤ 5) ∧
    el_database_impl.root_crate_by_name example_storage_named "C" = none ∧
    (∀ i, ¬ example_storage_named.is_root_crate_titled (c_str "C") i) :=
  ⟨rfl,
   (root_crate_by_name_greatest example_storage_named "A").2.1 5 rfl,
   rfl,
   (root_crate_by_name_greatest example_storage_named "C").1.mp rfl⟩

/-! ## Engine v2 database stubs: claims -/

/-- C29: in the Engine v2 database, `begin_transaction`, `crate_by_id`,
`crates`, `crates_by_name`, `create_root_crate`, `remove_crate`,
`remove_track`, `root_crates`, `root_crate_by_name` and
`tracks_by_relative_path` throw `runtime_error` for every input and every
library state; the outcome does not depend on the state, and the operations
that would write leave the state as it was; `create_root_crate ""` throws
`runtime_error`, not `crate_invalid_name`. -/
theorem v2_database_stubs (lib : engine_library) (id : Int) (name : String) :
    database_impl.begin_transaction lib = (lib, .error (.runtime_error
      "database_impl::begin_transaction() - Not implemented yet")) ∧
    database_impl.crate_by_id lib id = .error (.runtime_error
      "database_impl::crate_by_id() - Not implemented yet") ∧
    database_impl.crates lib = .error (.runtime_error
      "database_impl::crates() - Not implemented yet") ∧
    database_impl.crates_by_name lib name = .error (.runtime_error
      "database_impl::crates_by_name() - Not implemented yet") ∧
    database_impl.create_root_crate lib name = (lib, .error (.runtime_error
      "database_impl::create_root_crate() - Not implemented yet")) ∧
    database_impl.remove_crate lib id = (lib, .error (.runtime_error
      "database_impl::remove_crate() - Not implemented yet")) ∧
    database_impl.remove_track lib id = (lib, .error (.runtime_error
      "database_impl::remove_track() - Not implemented yet")) ∧
    database_impl.root_crates lib = .error (.runtime_error
      "database_impl::root_crates() - Not implemented yet") ∧
    database_impl.root_crate_by_name lib name = .error (.runtime_error
      "database_impl::root_crate_by_name() - Not implemented yet") ∧
    database_impl.tracks_by_relative_path lib name = .error (.runtime_error
      "database_impl::tracks_by_relative_path() - Not implemented yet") ∧
    (database_impl.create_root_crate lib "").2 = .error (.runtime_error
      "database_impl::create_root_crate() - Not implemented yet") ∧
    (∀ msg, (database_impl.create_root_crate lib "").2 ≠
      .error (.crate_invalid_name msg "")) := by
  refine ⟨rfl, rfl, rfl, rfl, rfl, rfl, rfl, rfl, rfl, rfl, rfl, ?_⟩
  intro msg h
  cases h

end djinterop
